import Mathlib

/-!
Shallow embedding of the crm-backend routes (auth, contacts, leads, tasks)
over an explicit list-based store, together with theorems checking the
natural-language specification against the embedded code.

Conventions of the embedding:
* SQL rows are Lean structures; nullable columns are `Option` fields.
* Ids, dates and timestamps are `Nat`; money and probability are `Int`.
* Request payloads carry `Option` fields: `none` models a field that is
  absent from the JSON body (which node-postgres sends as SQL NULL).
* Every mutating route returns the HTTP outcome together with the new
  table contents; on any error the table is returned unchanged, matching
  the transactional behaviour of a single failed SQL statement.
* External libraries (bcrypt, jsonwebtoken) are abstracted as function
  parameters; everything else is translated from the source files.
* Database constraints from migrations/init.sql (primary keys, NOT NULL,
  CHECK clauses) are part of the embedded write operations; a constraint
  violation surfaces as `ApiError.InternalError`, the 500 path of the
  routes.
-/

deriving instance DecidableEq for Except

namespace CRM

/-- Error taxonomy of the HTTP layer (section 7 of the spec). -/
inductive ApiError where
  | NotFound
  | ValidationError
  | Unauthorized
  | Conflict
  | InternalError
deriving DecidableEq

/-- JavaScript string truthiness: `undefined` and the empty string are
falsy; a falsy value is collapsed to `none`. -/
def jsStr : Option String → Option String
  | none => none
  | some s => if s = "" then none else some s

/-- JavaScript `a || b` on (possibly absent) strings. -/
def jsOrStr (a b : Option String) : Option String :=
  match jsStr a with
  | some s => some s
  | none => b

/-- Substring test on character lists, used to embed SQL ILIKE. -/
def hasSubstr : List Char → List Char → Bool
  | needle, [] => needle.isEmpty
  | needle, c :: t => needle.isPrefixOf (c :: t) || hasSubstr needle t

/-- SQL `col ILIKE escape-pattern` for a pattern of shape percent-text-percent:
case-insensitive substring match; a NULL column never matches. -/
def ilike (pat : String) : Option String → Bool
  | none => false
  | some s => hasSubstr pat.toLower.toList s.toLower.toList

/-- Insert into a sorted list, keeping it sorted for the comparator. -/
def insertSorted (le : α → α → Bool) (a : α) : List α → List α
  | [] => [a]
  | b :: t => if le a b then a :: b :: t else b :: insertSorted le a t

/-- Structural sort by a boolean comparator, embedding SQL ORDER BY. -/
def sortByLe (le : α → α → Bool) : List α → List α
  | [] => []
  | a :: t => insertSorted le a (sortByLe le t)

theorem mem_insertSorted (le : α → α → Bool) (a x : α) (l : List α) :
    x ∈ insertSorted le a l ↔ x = a ∨ x ∈ l := by
  induction l with
  | nil => simp [insertSorted]
  | cons b t ih =>
    simp only [insertSorted]
    split
    · simp
    · simp only [List.mem_cons, ih]
      tauto

theorem perm_insertSorted (le : α → α → Bool) (a : α) (l : List α) :
    List.Perm (insertSorted le a l) (a :: l) := by
  induction l with
  | nil => simp [insertSorted]
  | cons b t ih =>
    simp only [insertSorted]
    split
    · exact List.Perm.refl _
    · exact List.Perm.trans (List.Perm.cons b ih) (List.Perm.swap a b t)

theorem perm_sortByLe (le : α → α → Bool) (l : List α) :
    List.Perm (sortByLe le l) l := by
  induction l with
  | nil => simp [sortByLe]
  | cons a t ih =>
    exact List.Perm.trans (perm_insertSorted le a (sortByLe le t))
      (List.Perm.cons a ih)

theorem mem_sortByLe (le : α → α → Bool) (l : List α) (x : α) :
    x ∈ sortByLe le l ↔ x ∈ l :=
  (perm_sortByLe le l).mem_iff

theorem pairwise_insertSorted (le : α → α → Bool)
    (htot : ∀ a b, le a b || le b a)
    (htrans : ∀ a b c, le a b = true → le b c = true → le a c = true)
    (a : α) (l : List α)
    (h : l.Pairwise (fun x y => le x y = true)) :
    (insertSorted le a l).Pairwise (fun x y => le x y = true) := by
  induction l with
  | nil => simp [insertSorted]
  | cons b t ih =>
    rcases List.pairwise_cons.mp h with ⟨hb, ht⟩
    simp only [insertSorted]
    split
    · rename_i hle
      refine List.pairwise_cons.mpr ⟨?_, h⟩
      intro y hy
      rcases List.mem_cons.mp hy with rfl | hyt
      · exact hle
      · exact htrans a b y hle (hb y hyt)
    · rename_i hnle
      have hba : le b a = true := by
        have := htot a b
        rcases Bool.or_eq_true_iff.mp this with h1 | h2
        · exact absurd h1 hnle
        · exact h2
      refine List.pairwise_cons.mpr ⟨?_, ih ht⟩
      intro y hy
      rcases (mem_insertSorted le a y t).mp hy with rfl | hyt
      · exact hba
      · exact hb y hyt

theorem pairwise_sortByLe (le : α → α → Bool)
    (htot : ∀ a b, le a b || le b a)
    (htrans : ∀ a b c, le a b = true → le b c = true → le a c = true)
    (l : List α) :
    (sortByLe le l).Pairwise (fun x y => le x y = true) := by
  induction l with
  | nil => simp [sortByLe]
  | cons a t ih => exact pairwise_insertSorted le htot htrans a (sortByLe le t) ih

/-- A contacts row (migrations/init.sql, table contacts). -/
structure Contact where
  id : Nat
  company_id : Nat
  name : String
  email : Option String
  phone : Option String
  position : Option String
  company_name : Option String
  status : Option String
  value : Option Int
  notes : Option String
  last_contact : Option Nat
  tags : List String
  created_at : Nat
  updated_at : Nat
deriving DecidableEq

/-- JSON body accepted by POST /contacts and PUT /contacts/:id. -/
structure ContactPayload where
  name : Option String
  email : Option String
  phone : Option String
  position : Option String
  company_name : Option String
  value : Option Int
  notes : Option String
  status : Option String
deriving DecidableEq

/-- Query string of GET /contacts. -/
structure ContactQuery where
  search : Option String
  status : Option String
  limit : Nat
deriving DecidableEq

/-- The WHERE clauses appended for the optional contact list filters. -/
def contactMatches (q : ContactQuery) (c : Contact) : Bool :=
  (match jsStr q.search with
   | none => true
   | some s => ilike s (some c.name) || ilike s c.email || ilike s c.company_name) &&
  (match jsStr q.status with
   | none => true
   | some st => c.status == some st)

/-- Comparator for ORDER BY created_at DESC. -/
def contactCreatedDesc (a b : Contact) : Bool :=
  decide (b.created_at ≤ a.created_at)

/-- GET /contacts (src/routes/contacts.js). -/
def listContacts (db : List Contact) (cid : Nat) (q : ContactQuery) : List Contact :=
  (sortByLe contactCreatedDesc
    (db.filter (fun c => c.company_id == cid && contactMatches q c))).take q.limit

/-- GET /contacts/:id (src/routes/contacts.js). -/
def getContact (db : List Contact) (cid id : Nat) : Except ApiError Contact :=
  match db.find? (fun c => c.id == id && c.company_id == cid) with
  | none => .error .NotFound
  | some c => .ok c

/-- POST /contacts (src/routes/contacts.js).  The route requires a truthy
name and stamps last_contact with the current date; the INSERT obeys the
primary-key constraint. -/
def createContact (db : List Contact) (cid : Nat) (p : ContactPayload)
    (newId now : Nat) : Except ApiError Contact × List Contact :=
  match jsStr p.name with
  | none => (.error .ValidationError, db)
  | some nm =>
    if db.any (fun c => c.id == newId) then (.error .InternalError, db)
    else
      let c : Contact :=
        { id := newId, company_id := cid, name := nm,
          email := p.email, phone := p.phone, position := p.position,
          company_name := p.company_name,
          status := some (p.status.getD ("prospect")),
          value := some (p.value.getD 0),
          notes := p.notes, last_contact := some now, tags := [],
          created_at := now, updated_at := now }
      (.ok c, db ++ [c])

/-- The SET list of PUT /contacts/:id applied to one row. -/
def contactApplyUpdate (p : ContactPayload) (nm : String) (now : Nat)
    (c : Contact) : Contact :=
  { c with
    name := nm, email := p.email, phone := p.phone,
    position := p.position, company_name := p.company_name,
    value := p.value, notes := p.notes, status := p.status,
    updated_at := now }

/-- PUT /contacts/:id (src/routes/contacts.js).  A payload without a name
hits the NOT NULL constraint on contacts.name, which aborts the UPDATE. -/
def updateContact (db : List Contact) (cid id : Nat) (p : ContactPayload)
    (now : Nat) : Except ApiError Contact × List Contact :=
  match db.find? (fun c => c.id == id && c.company_id == cid) with
  | none => (.error .NotFound, db)
  | some c =>
    match p.name with
    | none => (.error .InternalError, db)
    | some nm =>
      (.ok (contactApplyUpdate p nm now c),
       db.map (fun r =>
         if r.id == id && r.company_id == cid then contactApplyUpdate p nm now r
         else r))

/-- DELETE /contacts/:id (src/routes/contacts.js). -/
def deleteContact (db : List Contact) (cid id : Nat) :
    Except ApiError Unit × List Contact :=
  if db.any (fun c => c.id == id && c.company_id == cid) then
    (.ok (), db.filter (fun c => !(c.id == id && c.company_id == cid)))
  else (.error .NotFound, db)

/-- A leads row (migrations/init.sql, table leads). -/
structure Lead where
  id : Nat
  company_id : Nat
  title : String
  company_name : Option String
  contact_name : Option String
  value : Option Int
  stage : Option String
  probability : Option Int
  expected_close : Option Nat
  source : Option String
  notes : Option String
  tags : List String
  created_at : Nat
  updated_at : Nat
deriving DecidableEq

/-- JSON body accepted by POST /leads and PUT /leads/:id. -/
structure LeadPayload where
  title : Option String
  company_name : Option String
  contact_name : Option String
  value : Option Int
  stage : Option String
  probability : Option Int
  expected_close : Option Nat
  source : Option String
  notes : Option String
deriving DecidableEq

/-- Query string of GET /leads. -/
structure LeadQuery where
  search : Option String
  stage : Option String
  limit : Nat
deriving DecidableEq

/-- CHECK constraint on leads.probability: NULL passes, a value must lie in
the closed interval from 0 to 100. -/
def probabilityOk : Option Int → Bool
  | none => true
  | some v => decide (0 ≤ v) && decide (v ≤ 100)

/-- The WHERE clauses appended for the optional lead list filters. -/
def leadMatches (q : LeadQuery) (l : Lead) : Bool :=
  (match jsStr q.search with
   | none => true
   | some s => ilike s (some l.title) || ilike s l.company_name || ilike s l.contact_name) &&
  (match jsStr q.stage with
   | none => true
   | some st => l.stage == some st)

/-- Comparator for ORDER BY created_at DESC on leads. -/
def leadCreatedDesc (a b : Lead) : Bool :=
  decide (b.created_at ≤ a.created_at)

/-- GET /leads (src/unnamed/part_002). -/
def listLeads (db : List Lead) (cid : Nat) (q : LeadQuery) : List Lead :=
  (sortByLe leadCreatedDesc
    (db.filter (fun l => l.company_id == cid && leadMatches q l))).take q.limit

/-- GET /leads/:id (src/unnamed/part_002). -/
def getLead (db : List Lead) (cid id : Nat) : Except ApiError Lead :=
  match db.find? (fun l => l.id == id && l.company_id == cid) with
  | none => .error .NotFound
  | some l => .ok l

/-- POST /leads (src/unnamed/part_002).  Destructuring defaults: stage
comes as the literal lead, probability as 10; value falls back to 0 by
the or-operator.  The INSERT obeys the primary-key and the probability
CHECK constraint. -/
def createLead (db : List Lead) (cid : Nat) (p : LeadPayload)
    (newId now : Nat) : Except ApiError Lead × List Lead :=
  match jsStr p.title with
  | none => (.error .ValidationError, db)
  | some ttl =>
    if db.any (fun l => l.id == newId) then (.error .InternalError, db)
    else if probabilityOk (some (p.probability.getD 10)) then
      let l : Lead :=
        { id := newId, company_id := cid, title := ttl,
          company_name := p.company_name, contact_name := p.contact_name,
          value := some (p.value.getD 0),
          stage := some (p.stage.getD ("lead")),
          probability := some (p.probability.getD 10),
          expected_close := p.expected_close, source := p.source,
          notes := p.notes, tags := [],
          created_at := now, updated_at := now }
      (.ok l, db ++ [l])
    else (.error .InternalError, db)

/-- The SET list of PUT /leads/:id applied to one row. -/
def leadApplyUpdate (p : LeadPayload) (ttl : String) (now : Nat)
    (l : Lead) : Lead :=
  { l with
    title := ttl, company_name := p.company_name,
    contact_name := p.contact_name, value := p.value, stage := p.stage,
    probability := p.probability, expected_close := p.expected_close,
    source := p.source, notes := p.notes, updated_at := now }

/-- PUT /leads/:id (src/unnamed/part_002).  A payload without a title hits
the NOT NULL constraint on leads.title, and an out-of-range probability
hits the CHECK constraint; either aborts the UPDATE. -/
def updateLead (db : List Lead) (cid id : Nat) (p : LeadPayload)
    (now : Nat) : Except ApiError Lead × List Lead :=
  match db.find? (fun l => l.id == id && l.company_id == cid) with
  | none => (.error .NotFound, db)
  | some l =>
    match p.title with
    | none => (.error .InternalError, db)
    | some ttl =>
      if probabilityOk p.probability then
        (.ok (leadApplyUpdate p ttl now l),
         db.map (fun r =>
           if r.id == id && r.company_id == cid then leadApplyUpdate p ttl now r
           else r))
      else (.error .InternalError, db)

/-- DELETE /leads/:id (src/unnamed/part_002). -/
def deleteLead (db : List Lead) (cid id : Nat) :
    Except ApiError Unit × List Lead :=
  if db.any (fun l => l.id == id && l.company_id == cid) then
    (.ok (), db.filter (fun l => !(l.id == id && l.company_id == cid)))
  else (.error .NotFound, db)

/-- The CASE expression ordering stages in GET /leads/stats/pipeline. -/
def stageRank (s : Option String) : Nat :=
  match s with
  | none => 7
  | some t =>
    match t with
    | "lead" => 1
    | "qualified" => 2
    | "proposal" => 3
    | "negotiation" => 4
    | "closed-won" => 5
    | "closed-lost" => 6
    | _ => 7

/-- One output row of GET /leads/stats/pipeline. -/
structure StageGroup where
  stage : Option String
  count : Nat
  total_value : Option Int
  avg_probability : Option Rat
deriving DecidableEq

/-- SQL SUM over a grouped integer column: NULL inputs are ignored and an
all-NULL group sums to NULL. -/
def sqlSumInt (xs : List (Option Int)) : Option Int :=
  let vs := xs.filterMap id
  if vs.isEmpty then none else some vs.sum

/-- SQL AVG over a grouped integer column: NULL inputs are ignored and an
all-NULL group averages to NULL. -/
def sqlAvgInt (xs : List (Option Int)) : Option Rat :=
  let vs := xs.filterMap id
  if vs.isEmpty then none else some ((vs.sum : Rat) / (vs.length : Rat))

/-- The SELECT list of GET /leads/stats/pipeline for one stage group. -/
def mkStageGroup (mine : List Lead) (s : Option String) : StageGroup :=
  let ls := mine.filter (fun l => l.stage == s)
  { stage := s, count := ls.length,
    total_value := sqlSumInt (ls.map (fun l => l.value)),
    avg_probability := sqlAvgInt (ls.map (fun l => l.probability)) }

/-- Comparator for the fixed stage sequence of the pipeline query. -/
def stageGroupLe (a b : StageGroup) : Bool :=
  decide (stageRank a.stage ≤ stageRank b.stage)

/-- GET /leads/stats/pipeline (src/unnamed/part_002): group the caller's
leads by stage, aggregate, and order by the fixed stage sequence. -/
def pipelineStats (db : List Lead) (cid : Nat) : List StageGroup :=
  let mine := db.filter (fun l => l.company_id == cid)
  sortByLe stageGroupLe (((mine.map (fun l => l.stage)).dedup).map (mkStageGroup mine))

/-- A tasks row (migrations/init.sql, table tasks). -/
structure Task where
  id : Nat
  company_id : Nat
  contact_id : Option Nat
  title : String
  description : Option String
  due_date : Option Nat
  priority : Option String
  status : Option String
  created_at : Nat
  updated_at : Nat
deriving DecidableEq

/-- JSON body accepted by POST /tasks and PUT /tasks/:id. -/
structure TaskPayload where
  title : Option String
  description : Option String
  due_date : Option Nat
  priority : Option String
  status : Option String
  contact_id : Option Nat
deriving DecidableEq

/-- Query string of GET /tasks. -/
structure TaskQuery where
  search : Option String
  status : Option String
  priority : Option String
  limit : Nat
deriving DecidableEq

/-- One row of the task list: the task joined with the name of the
referenced contact (LEFT JOIN contacts ON t.contact_id = c.id). -/
structure TaskRow where
  task : Task
  contact_name : Option String
deriving DecidableEq

/-- CHECK constraint on tasks.priority: NULL passes, otherwise one of the
three severity labels. -/
def taskPriorityValid : Option String → Bool
  | none => true
  | some s => s == "low" || s == "medium" || s == "high"

/-- CHECK constraint on tasks.status: NULL passes, otherwise one of the
four lifecycle labels. -/
def taskStatusValid : Option String → Bool
  | none => true
  | some s => s == "pending" || s == "in-progress" || s == "completed" || s == "cancelled"

/-- The CASE expression ordering priorities in GET /tasks: high first,
then medium, then low; the CASE has no ELSE, so a NULL priority gets a
NULL key, which ORDER BY places last. -/
def taskPriorityRank : Option String → Nat
  | some s =>
    match s with
    | "high" => 1
    | "medium" => 2
    | "low" => 3
    | _ => 4
  | none => 4

/-- Sort key of due_date ASC NULLS LAST: a NULL date compares after every
real date. -/
def dueKey : Option Nat → Nat × Nat
  | some d => (0, d)
  | none => (1, 0)

/-- ORDER BY of GET /tasks: priority severity, then due_date ascending
with nulls last, then created_at descending. -/
def taskLe (a b : TaskRow) : Bool :=
  let pa := taskPriorityRank a.task.priority
  let pb := taskPriorityRank b.task.priority
  let da := dueKey a.task.due_date
  let dd := dueKey b.task.due_date
  if pa ≠ pb then decide (pa < pb)
  else if da.1 ≠ dd.1 then decide (da.1 < dd.1)
  else if da.2 ≠ dd.2 then decide (da.2 < dd.2)
  else decide (b.task.created_at ≤ a.task.created_at)

/-- The WHERE clauses appended for the optional task list filters. -/
def taskMatches (q : TaskQuery) (t : Task) : Bool :=
  (match jsStr q.search with
   | none => true
   | some s => ilike s (some t.title) || ilike s t.description) &&
  (match jsStr q.status with
   | none => true
   | some st => t.status == some st) &&
  (match jsStr q.priority with
   | none => true
   | some pr => t.priority == some pr)

/-- The LEFT JOIN of a task with its contact name. -/
def joinContactName (contacts : List Contact) (t : Task) : TaskRow :=
  { task := t,
    contact_name :=
      (t.contact_id.bind (fun c => contacts.find? (fun k => k.id == c))).map
        (fun k => k.name) }

/-- GET /tasks (src/unnamed/part_001). -/
def listTasks (tasks : List Task) (contacts : List Contact) (cid : Nat)
    (q : TaskQuery) : List TaskRow :=
  (sortByLe taskLe
    ((tasks.filter (fun t => t.company_id == cid && taskMatches q t)).map
      (joinContactName contacts))).take q.limit

/-- GET /tasks/:id (src/unnamed/part_001). -/
def getTask (tasks : List Task) (contacts : List Contact) (cid id : Nat) :
    Except ApiError TaskRow :=
  match tasks.find? (fun t => t.id == id && t.company_id == cid) with
  | none => .error .NotFound
  | some t => .ok (joinContactName contacts t)

/-- The per-company contact-ownership check run by POST /tasks and
PUT /tasks/:id when a contact_id is supplied. -/
def contactOwned (contacts : List Contact) (cid c : Nat) : Bool :=
  contacts.any (fun k => k.id == c && k.company_id == cid)

/-- The INSERT statement of POST /tasks with its table constraints. -/
def createTaskInsert (tasks : List Task) (cid : Nat) (p : TaskPayload)
    (ttl : String) (c : Option Nat) (newId now : Nat) :
    Except ApiError Task × List Task :=
  if tasks.any (fun t => t.id == newId) then (.error .InternalError, tasks)
  else if taskPriorityValid (some (p.priority.getD ("medium"))) &&
       taskStatusValid (some (p.status.getD ("pending"))) then
    let t : Task :=
      { id := newId, company_id := cid, contact_id := c, title := ttl,
        description := p.description, due_date := p.due_date,
        priority := some (p.priority.getD ("medium")),
        status := some (p.status.getD ("pending")),
        created_at := now, updated_at := now }
    (.ok t, tasks ++ [t])
  else (.error .InternalError, tasks)

/-- POST /tasks (src/unnamed/part_001).  The route requires a truthy
title, then checks a supplied contact_id against the caller's contacts;
the INSERT obeys the primary-key and the two CHECK constraints. -/
def createTask (tasks : List Task) (contacts : List Contact) (cid : Nat)
    (p : TaskPayload) (newId now : Nat) : Except ApiError Task × List Task :=
  match jsStr p.title with
  | none => (.error .ValidationError, tasks)
  | some ttl =>
    match p.contact_id with
    | some c =>
      if contactOwned contacts cid c then
        createTaskInsert tasks cid p ttl (some c) newId now
      else (.error .ValidationError, tasks)
    | none => createTaskInsert tasks cid p ttl none newId now

/-- The SET list of PUT /tasks/:id applied to one row. -/
def taskApplyUpdate (p : TaskPayload) (ttl : String) (now : Nat)
    (t : Task) : Task :=
  { t with
    title := ttl, description := p.description, due_date := p.due_date,
    priority := p.priority, status := p.status, contact_id := p.contact_id,
    updated_at := now }

/-- The UPDATE statement of PUT /tasks/:id with its table constraints. -/
def updateTaskRun (tasks : List Task) (cid id : Nat) (p : TaskPayload)
    (now : Nat) : Except ApiError Task × List Task :=
  match tasks.find? (fun t => t.id == id && t.company_id == cid) with
  | none => (.error .NotFound, tasks)
  | some t =>
    match p.title with
    | none => (.error .InternalError, tasks)
    | some ttl =>
      if taskPriorityValid p.priority && taskStatusValid p.status then
        (.ok (taskApplyUpdate p ttl now t),
         tasks.map (fun r =>
           if r.id == id && r.company_id == cid then taskApplyUpdate p ttl now r
           else r))
      else (.error .InternalError, tasks)

/-- PUT /tasks/:id (src/unnamed/part_001).  The contact-ownership check
runs before the UPDATE, even before the row lookup; a payload without a
title hits the NOT NULL constraint and invalid priority or status labels
hit the CHECK constraints, aborting the UPDATE. -/
def updateTask (tasks : List Task) (contacts : List Contact) (cid id : Nat)
    (p : TaskPayload) (now : Nat) : Except ApiError Task × List Task :=
  match p.contact_id with
  | some c =>
    if contactOwned contacts cid c then updateTaskRun tasks cid id p now
    else (.error .ValidationError, tasks)
  | none => updateTaskRun tasks cid id p now

/-- DELETE /tasks/:id (src/unnamed/part_001). -/
def deleteTask (tasks : List Task) (cid id : Nat) :
    Except ApiError Unit × List Task :=
  if tasks.any (fun t => t.id == id && t.company_id == cid) then
    (.ok (), tasks.filter (fun t => !(t.id == id && t.company_id == cid)))
  else (.error .NotFound, tasks)

/-- One output row of GET /tasks/stats/overview. -/
structure TaskStatGroup where
  status : Option String
  priority : Option String
  count : Nat
deriving DecidableEq

/-- SQL default ascending order on a nullable text column, NULLS LAST. -/
def optStrLe (a b : Option String) : Bool :=
  match a, b with
  | none, _ => b == none
  | some _, none => true
  | some x, some y => decide (x < y) || x == y

/-- ORDER BY status, priority of GET /tasks/stats/overview. -/
def taskStatLe (a b : TaskStatGroup) : Bool :=
  if a.status == b.status then optStrLe a.priority b.priority
  else optStrLe a.status b.status

/-- GET /tasks/stats/overview (src/unnamed/part_001): group the caller's
tasks by status and priority and count each group. -/
def taskStatsOverview (tasks : List Task) (cid : Nat) : List TaskStatGroup :=
  let mine := tasks.filter (fun t => t.company_id == cid)
  sortByLe taskStatLe
    (((mine.map (fun t => (t.status, t.priority))).dedup).map (fun k =>
      { status := k.1, priority := k.2,
        count := (mine.filter (fun t => t.status == k.1 && t.priority == k.2)).length }))

/-- A users row (migrations/init.sql, table users). -/
structure User where
  id : Nat
  email : String
  password_hash : String
  name : String
  company_id : Nat
  role : Option String
  is_active : Bool
  last_login : Option Nat
  created_at : Nat
  updated_at : Nat
deriving DecidableEq

/-- A companies row (migrations/init.sql, table companies). -/
structure Company where
  id : Nat
  name : String
  plan : Option String
  created_at : Nat
  updated_at : Nat
deriving DecidableEq

/-- The two tables touched by the auth routes. -/
structure AuthDb where
  companies : List Company
  users : List User
deriving DecidableEq

/-- Response body of a successful POST /auth/register: token plus the
public user fields id, email, name. -/
structure RegisterOut where
  token : String
  id : Nat
  email : String
  name : String
deriving DecidableEq

/-- Response body of a successful POST /auth/login: the register fields
plus company_id. -/
structure LoginOut where
  token : String
  id : Nat
  email : String
  name : String
  company_id : Nat
deriving DecidableEq

/-- An HTTP error response with its status code and JSON error message. -/
structure HttpError where
  status : Nat
  error : String
deriving DecidableEq

/-- POST /auth/register (src/routes/auth.js).  The duplicate-email check
runs first; then the company row is inserted, the password hashed, the
user row inserted with the fresh company id, and a token issued.  The
bcrypt hash and the jwt signer are abstracted as the parameters hash and
sign; newCompanyId and newUserId stand for the generated uuids.  The two
inserts are separate statements, so a failing user insert leaves the
already-inserted company row behind. -/
def register (db : AuthDb) (hash : String → String) (sign : Nat → String)
    (name email password : String) (companyName : Option String)
    (newCompanyId newUserId now : Nat) : Except ApiError RegisterOut × AuthDb :=
  if db.users.any (fun u => u.email == email) then (.error .Conflict, db)
  else if db.companies.any (fun c => c.id == newCompanyId) then
    (.error .InternalError, db)
  else
    let comp : Company :=
      { id := newCompanyId, name := (jsStr companyName).getD ("My Company"),
        plan := some ("basic"), created_at := now, updated_at := now }
    let db1 : AuthDb := { db with companies := db.companies ++ [comp] }
    if db1.users.any (fun u => u.id == newUserId) then (.error .InternalError, db1)
    else
      let u : User :=
        { id := newUserId, email := email, password_hash := hash password,
          name := name, company_id := newCompanyId, role := some ("user"),
          is_active := true, last_login := none,
          created_at := now, updated_at := now }
      (.ok { token := sign newUserId, id := newUserId, email := email, name := name },
       { db1 with users := db1.users ++ [u] })

/-- POST /auth/login (src/routes/auth.js).  The bcrypt comparison is
abstracted as the parameter check taking the cleartext password and the
stored hash. -/
def login (db : AuthDb) (check : String → String → Bool) (sign : Nat → String)
    (email password : String) : Except HttpError LoginOut :=
  match db.users.find? (fun u => u.email == email) with
  | none => .error { status := 400, error := "Invalid credentials" }
  | some u =>
    if check password u.password_hash then
      .ok { token := sign u.id, id := u.id, email := u.email, name := u.name,
            company_id := u.company_id }
    else .error { status := 400, error := "Invalid credentials" }

/-- The request headers inspected by the auth middleware. -/
structure AuthRequest where
  xAuthToken : Option String
  authorization : Option String
deriving DecidableEq

/-- JavaScript string replace with a string pattern: first occurrence
only, here used with the bearer marker. -/
def replaceFirst (s pat : String) : String :=
  match s.splitOn pat with
  | [] => s
  | [x] => x
  | x :: rest => x ++ String.intercalate pat rest

/-- Token extraction of the auth middleware (src/unnamed/part_000): the
custom header wins when truthy, otherwise the authorization header with
the first bearer marker stripped. -/
def extractToken (req : AuthRequest) : Option String :=
  jsOrStr req.xAuthToken (req.authorization.map (fun a => replaceFirst a ("Bearer ")))

/-- The identity attached to the request by the auth middleware. -/
structure AuthedUser where
  id : Nat
  email : String
  name : String
  company_id : Nat
  role : Option String
deriving DecidableEq

/-- The auth middleware (src/unnamed/part_000).  jwt.verify is abstracted
as the parameter verify, returning the decoded user id or failing for a
bad signature, malformed token or expired token.  A falsy token, a failed
verification and an unknown user id all answer 401. -/
def authMiddleware (users : List User) (verify : String → Option Nat)
    (req : AuthRequest) : Except ApiError AuthedUser :=
  match jsStr (extractToken req) with
  | none => .error .Unauthorized
  | some tok =>
    match verify tok with
    | none => .error .Unauthorized
    | some uid =>
      match users.find? (fun u => u.id == uid) with
      | none => .error .Unauthorized
      | some u =>
        .ok { id := u.id, email := u.email, name := u.name,
              company_id := u.company_id, role := u.role }

/-! Concrete fixtures used by the closed witness theorems below. -/

/-- A contact of tenant 1. -/
def cW : Contact :=
  { id := 1, company_id := 1, name := "John Smith", email := some ("john@acmecorp.com"),
    phone := none, position := some ("CEO"), company_name := some ("Acme Corp"),
    status := some ("active"), value := some 50000, notes := none,
    last_contact := some 3, tags := [], created_at := 10, updated_at := 10 }

/-- A contact of tenant 2 (a different company). -/
def cW2 : Contact :=
  { id := 2, company_id := 2, name := "Sarah Johnson", email := none,
    phone := none, position := none, company_name := none,
    status := some ("prospect"), value := some 0, notes := none,
    last_contact := some 3, tags := [], created_at := 11, updated_at := 11 }

/-- A lead of tenant 1 in stage negotiation. -/
def lW : Lead :=
  { id := 1, company_id := 1, title := "Enterprise Software Deal",
    company_name := some ("Global Industries"), contact_name := some ("Mike Wilson"),
    value := some 75000, stage := some ("negotiation"), probability := some 70,
    expected_close := some 45, source := some ("Website"), notes := none,
    tags := [], created_at := 10, updated_at := 10 }

/-- A lead of tenant 1 in stage proposal. -/
def lW2 : Lead :=
  { id := 2, company_id := 1, title := "Small Business Package",
    company_name := some ("Local Bakery"), contact_name := some ("Lisa Chen"),
    value := some 5000, stage := some ("proposal"), probability := some 50,
    expected_close := some 30, source := some ("Referral"), notes := none,
    tags := [], created_at := 11, updated_at := 11 }

/-- A lead of tenant 2. -/
def lW3 : Lead :=
  { id := 3, company_id := 2, title := "Other Tenant Deal",
    company_name := none, contact_name := none,
    value := some 100, stage := some ("lead"), probability := some 10,
    expected_close := none, source := none, notes := none,
    tags := [], created_at := 12, updated_at := 12 }

/-- A task of tenant 1 with the given id, priority and creation time. -/
def tW (i : Nat) (pr : String) (ca : Nat) : Task :=
  { id := i, company_id := 1, contact_id := none, title := "Follow up",
    description := none, due_date := some 20, priority := some pr,
    status := some ("pending"), created_at := ca, updated_at := ca }

/-- A task of tenant 2. -/
def tW2 : Task :=
  { id := 9, company_id := 2, contact_id := none, title := "Other tenant task",
    description := none, due_date := none, priority := some ("low"),
    status := some ("pending"), created_at := 1, updated_at := 1 }

/-- An all-defaults task list query. -/
def tqW : TaskQuery := { search := none, status := none, priority := none, limit := 100 }

/-- An all-defaults contact list query. -/
def cqW : ContactQuery := { search := none, status := none, limit := 100 }

/-- An all-defaults lead list query. -/
def lqW : LeadQuery := { search := none, stage := none, limit := 100 }

/-- The demo user of the seed data. -/
def uW : User :=
  { id := 1, email := "demo@example.com", password_hash := "hash-of-password",
    name := "Demo User", company_id := 1, role := some ("admin"),
    is_active := true, last_login := none, created_at := 0, updated_at := 0 }

/-- An auth store holding the demo company and the demo user. -/
def authDbW : AuthDb :=
  { companies := [{ id := 1, name := "Demo Company", plan := some ("basic"),
                    created_at := 0, updated_at := 0 }],
    users := [uW] }

/-- A lead payload carrying a probability of 150, above the allowed range. -/
def lpHigh : LeadPayload :=
  { title := some ("Deal"), company_name := none, contact_name := none,
    value := none, stage := none, probability := some 150,
    expected_close := none, source := none, notes := none }

/-- A lead payload carrying a probability of minus five, below the range. -/
def lpLow : LeadPayload :=
  { title := some ("Deal"), company_name := none, contact_name := none,
    value := none, stage := none, probability := some (-5),
    expected_close := none, source := none, notes := none }

/-- A contact update payload that omits every field except email. -/
def cpNoName : ContactPayload :=
  { name := none, email := some ("new@x.com"), phone := none, position := none,
    company_name := none, value := none, notes := none, status := none }

/-! Theorems.  Each claim of the specification gets one theorem; shared
helper lemmas precede them. -/

/-- The response bodies of the two login failure modes are one and the
same term. -/
theorem login_fail_eq (db : AuthDb) (check : String → String → Bool)
    (sign : Nat → String) (e1 p1 e2 p2 : String) (u : User)
    (h1 : db.users.find? (fun x => x.email == e1) = none)
    (h2 : db.users.find? (fun x => x.email == e2) = some u)
    (h3 : check p2 u.password_hash = false) :
    login db check sign e1 p1 = login db check sign e2 p2 ∧
    login db check sign e1 p1 =
      .error { status := 400, error := "Invalid credentials" } := by
  unfold login
  rw [h1, h2]
  simp [h3]

/-- Claim C5: a login attempt with an unknown email and a login attempt
with a stored email but a non-matching password produce identical
responses (same status code, same error body), so the outcome does not
reveal which check failed. -/
theorem login_no_leak (db : AuthDb) (check : String → String → Bool)
    (sign : Nat → String) (e1 p1 e2 p2 : String) (u : User)
    (h1 : db.users.find? (fun x => x.email == e1) = none)
    (h2 : db.users.find? (fun x => x.email == e2) = some u)
    (h3 : check p2 u.password_hash = false) :
    login db check sign e1 p1 = login db check sign e2 p2 ∧
    login db check sign e1 p1 =
      .error { status := 400, error := "Invalid credentials" } :=
  login_fail_eq db check sign e1 p1 e2 p2 u h1 h2 h3

/-- Witness for C5 at a concrete store: unknown email versus wrong
password against the demo user. -/
theorem login_no_leak_witness :
    login authDbW (fun p h => p ++ ("+") == h) (fun _ => "tok") ("nobody@x.com") ("pw") =
      login authDbW (fun p h => p ++ ("+") == h) (fun _ => "tok") ("demo@example.com") ("wrong") ∧
    login authDbW (fun p h => p ++ ("+") == h) (fun _ => "tok") ("nobody@x.com") ("pw") =
      .error { status := 400, error := "Invalid credentials" } :=
  login_no_leak authDbW (fun p h => p ++ ("+") == h) (fun _ => "tok")
    ("nobody@x.com") ("pw") ("demo@example.com") ("wrong") uW
    (by decide) (by decide) (by decide)

/-- Claim C9: when register hits the duplicate-email conflict, the whole
store is returned unchanged — no company row and no user row has been
inserted, because the duplicate check runs before any insert. -/
theorem register_conflict_no_change (db : AuthDb) (hash : String → String)
    (sign : Nat → String) (name email password : String)
    (companyName : Option String) (newCompanyId newUserId now : Nat)
    (h : db.users.any (fun u => u.email == email) = true) :
    register db hash sign name email password companyName newCompanyId newUserId now =
      (.error .Conflict, db) := by
  unfold register
  rw [h]
  rfl

/-- Witness for C9: registering the demo email again conflicts and leaves
the demo store untouched. -/
theorem register_conflict_no_change_witness :
    register authDbW (fun s => s) (fun _ => "tok") ("Someone") ("demo@example.com")
      ("pw") none 5 6 50 = (.error .Conflict, authDbW) :=
  register_conflict_no_change authDbW (fun s => s) (fun _ => "tok") ("Someone")
    ("demo@example.com") ("pw") none 5 6 50 (by decide)

/-- Fields of a contact row that PUT /contacts/:id can never touch. -/
def contactFrame (a b : Contact) : Prop :=
  b.id = a.id ∧ b.company_id = a.company_id ∧ b.created_at = a.created_at ∧
  b.last_contact = a.last_contact ∧ b.tags = a.tags

/-- Claim C10: a contact update leaves the table row-for-row intact on
id, company_id, created_at, last_contact and tags; only the eight listed
mutable columns and updated_at can change. -/
theorem contact_update_frame (db : List Contact) (cid id : Nat)
    (p : ContactPayload) (now : Nat) :
    List.Forall₂ contactFrame db (updateContact db cid id p now).2 := by
  have hrefl : List.Forall₂ contactFrame db db :=
    List.forall₂_same.mpr (fun x _ => ⟨rfl, rfl, rfl, rfl, rfl⟩)
  unfold updateContact
  cases hf : db.find? (fun c => c.id == id && c.company_id == cid) with
  | none => exact hrefl
  | some c =>
    cases hn : p.name with
    | none => exact hrefl
    | some nm =>
      dsimp only
      rw [List.forall₂_map_right_iff]
      refine List.forall₂_same.mpr (fun x _ => ?_)
      dsimp only
      by_cases hx : (x.id == id && x.company_id == cid) = true
      · rw [if_pos hx]
        exact ⟨rfl, rfl, rfl, rfl, rfl⟩
      · rw [if_neg hx]
        exact ⟨rfl, rfl, rfl, rfl, rfl⟩

/-- A value produced by jsStr is itself truthy. -/
theorem jsStr_idem (a : Option String) (t : String) (h : jsStr a = some t) :
    jsStr (some t) = some t := by
  cases a with
  | none => simp [jsStr] at h
  | some s =>
    by_cases hs : s = ""
    · simp [jsStr, hs] at h
    · simp [jsStr, hs] at h
      subst h
      simp [jsStr, hs]

/-- A concrete token verifier accepting exactly one token. -/
def vfW : String → Option Nat :=
  fun s => if s == "good" then some 1 else none

/-- Claim C8: the auth gate reads the token from the custom x-auth-token
header when that header is truthy and otherwise from the bearer
authorization header; it fails with Unauthorized in exactly three cases
(no token, failed verification, decoded user id unknown), its failures
are always Unauthorized, and on success it attaches the resolved id,
email, name, company_id and role of the user. -/
theorem auth_gate_contract :
    (∀ (users : List User) (verify : String → Option Nat) (req : AuthRequest) (t : String),
      jsStr req.xAuthToken = some t →
      authMiddleware users verify req =
        authMiddleware users verify { xAuthToken := some t, authorization := none }) ∧
    (∀ req : AuthRequest, jsStr req.xAuthToken = none →
      extractToken req = req.authorization.map (fun a => replaceFirst a ("Bearer "))) ∧
    (∀ (users : List User) (verify : String → Option Nat) (req : AuthRequest) (e : ApiError),
      authMiddleware users verify req = .error e → e = .Unauthorized) ∧
    (∀ (users : List User) (verify : String → Option Nat) (req : AuthRequest) (a : AuthedUser),
      authMiddleware users verify req = .ok a →
      ∃ t uid u, jsStr (extractToken req) = some t ∧ verify t = some uid ∧
        users.find? (fun x => x.id == uid) = some u ∧
        a = { id := u.id, email := u.email, name := u.name,
              company_id := u.company_id, role := u.role }) ∧
    (∀ (users : List User) (verify : String → Option Nat) (req : AuthRequest),
      (jsStr (extractToken req) = none ∨
        (∃ t, jsStr (extractToken req) = some t ∧ verify t = none) ∨
        (∃ t uid, jsStr (extractToken req) = some t ∧ verify t = some uid ∧
          users.find? (fun x => x.id == uid) = none)) →
      authMiddleware users verify req = .error .Unauthorized) := by
  refine ⟨?_, ?_, ?_, ?_, ?_⟩
  · intro users verify req t h
    have h1 : extractToken req = some t := by
      unfold extractToken jsOrStr
      rw [h]
    have h2 : extractToken { xAuthToken := some t, authorization := none } = some t := by
      unfold extractToken jsOrStr
      rw [jsStr_idem req.xAuthToken t h]
    unfold authMiddleware
    rw [h1, h2]
  · intro req h
    unfold extractToken jsOrStr
    rw [h]
  · intro users verify req e h
    unfold authMiddleware at h
    cases h1 : jsStr (extractToken req) with
    | none =>
      rw [h1] at h
      exact (Except.error.injEq _ _).mp h.symm
    | some tok =>
      rw [h1] at h
      dsimp only at h
      cases h2 : verify tok with
      | none =>
        rw [h2] at h
        exact (Except.error.injEq _ _).mp h.symm
      | some uid =>
        rw [h2] at h
        dsimp only at h
        cases h3 : users.find? (fun x => x.id == uid) with
        | none =>
          rw [h3] at h
          exact (Except.error.injEq _ _).mp h.symm
        | some u =>
          rw [h3] at h
          exact absurd h (by simp)
  · intro users verify req a h
    unfold authMiddleware at h
    cases h1 : jsStr (extractToken req) with
    | none =>
      rw [h1] at h
      exact absurd h (by simp)
    | some tok =>
      rw [h1] at h
      dsimp only at h
      cases h2 : verify tok with
      | none =>
        rw [h2] at h
        exact absurd h (by simp)
      | some uid =>
        rw [h2] at h
        dsimp only at h
        cases h3 : users.find? (fun x => x.id == uid) with
        | none =>
          rw [h3] at h
          exact absurd h (by simp)
        | some u =>
          rw [h3] at h
          refine ⟨tok, uid, u, rfl, h2, h3, ?_⟩
          exact ((Except.ok.injEq _ _).mp h).symm
  · intro users verify req h
    unfold authMiddleware
    rcases h with h1 | ⟨t, h1, h2⟩ | ⟨t, uid, h1, h2, h3⟩
    · rw [h1]
    · rw [h1]
      dsimp only
      rw [h2]
    · rw [h1]
      dsimp only
      rw [h2]
      dsimp only
      rw [h3]

/-- Witness for C8 at concrete inputs: a token that fails verification is
rejected with Unauthorized, and a truthy custom header makes the gate
ignore the authorization header. -/
theorem auth_gate_contract_witness :
    authMiddleware [uW] vfW { xAuthToken := some ("bad"), authorization := none } =
      .error .Unauthorized ∧
    authMiddleware [uW] vfW { xAuthToken := some ("good"), authorization := some ("Bearer x") } =
      authMiddleware [uW] vfW { xAuthToken := some ("good"), authorization := none } := by
  constructor
  · exact auth_gate_contract.2.2.2.2 [uW] vfW
      { xAuthToken := some ("bad"), authorization := none }
      (Or.inr (Or.inl ⟨"bad", by decide, by decide⟩))
  · exact auth_gate_contract.1 [uW] vfW
      { xAuthToken := some ("good"), authorization := some ("Bearer x") }
      ("good") (by decide)

/-! Helper lemmas about the three update routes. -/

theorem updateContact_notFound (db : List Contact) (cid id : Nat)
    (p : ContactPayload) (now : Nat)
    (h : db.find? (fun c => c.id == id && c.company_id == cid) = none) :
    updateContact db cid id p now = (.error .NotFound, db) := by
  unfold updateContact
  rw [h]

theorem updateContact_ok (db : List Contact) (cid id : Nat)
    (p : ContactPayload) (now : Nat) (c : Contact) (nm : String)
    (hf : db.find? (fun c => c.id == id && c.company_id == cid) = some c)
    (hn : p.name = some nm) :
    updateContact db cid id p now =
      (.ok (contactApplyUpdate p nm now c),
       db.map (fun r =>
         if r.id == id && r.company_id == cid then contactApplyUpdate p nm now r
         else r)) := by
  unfold updateContact
  rw [hf]
  dsimp only
  rw [hn]

theorem updateContact_noName (db : List Contact) (cid id : Nat)
    (p : ContactPayload) (now : Nat) (c : Contact)
    (hf : db.find? (fun c => c.id == id && c.company_id == cid) = some c)
    (hn : p.name = none) :
    updateContact db cid id p now = (.error .InternalError, db) := by
  unfold updateContact
  rw [hf]
  dsimp only
  rw [hn]

theorem updateLead_notFound (db : List Lead) (cid id : Nat)
    (p : LeadPayload) (now : Nat)
    (h : db.find? (fun l => l.id == id && l.company_id == cid) = none) :
    updateLead db cid id p now = (.error .NotFound, db) := by
  unfold updateLead
  rw [h]

theorem updateLead_ok (db : List Lead) (cid id : Nat)
    (p : LeadPayload) (now : Nat) (l : Lead) (ttl : String)
    (hf : db.find? (fun l => l.id == id && l.company_id == cid) = some l)
    (hn : p.title = some ttl)
    (hp : probabilityOk p.probability = true) :
    updateLead db cid id p now =
      (.ok (leadApplyUpdate p ttl now l),
       db.map (fun r =>
         if r.id == id && r.company_id == cid then leadApplyUpdate p ttl now r
         else r)) := by
  unfold updateLead
  rw [hf]
  dsimp only
  rw [hn]
  dsimp only
  rw [if_pos hp]

theorem updateLead_badRow (db : List Lead) (cid id : Nat)
    (p : LeadPayload) (now : Nat) (l : Lead)
    (hf : db.find? (fun l => l.id == id && l.company_id == cid) = some l)
    (hn : p.title = none ∨ probabilityOk p.probability = false) :
    updateLead db cid id p now = (.error .InternalError, db) := by
  unfold updateLead
  rw [hf]
  dsimp only
  rcases hn with hn | hp
  · rw [hn]
  · cases ht : p.title with
    | none => rfl
    | some ttl =>
      dsimp only
      rw [if_neg (by rw [hp]; exact Bool.false_ne_true)]

theorem updateTaskRun_notFound (tasks : List Task) (cid id : Nat)
    (p : TaskPayload) (now : Nat)
    (h : tasks.find? (fun t => t.id == id && t.company_id == cid) = none) :
    updateTaskRun tasks cid id p now = (.error .NotFound, tasks) := by
  unfold updateTaskRun
  rw [h]

theorem updateTaskRun_ok (tasks : List Task) (cid id : Nat)
    (p : TaskPayload) (now : Nat) (t : Task) (ttl : String)
    (hf : tasks.find? (fun t => t.id == id && t.company_id == cid) = some t)
    (hn : p.title = some ttl)
    (hv : (taskPriorityValid p.priority && taskStatusValid p.status) = true) :
    updateTaskRun tasks cid id p now =
      (.ok (taskApplyUpdate p ttl now t),
       tasks.map (fun r =>
         if r.id == id && r.company_id == cid then taskApplyUpdate p ttl now r
         else r)) := by
  unfold updateTaskRun
  rw [hf]
  dsimp only
  rw [hn]
  dsimp only
  rw [if_pos hv]

theorem updateTask_checkPass (tasks : List Task) (contacts : List Contact)
    (cid id : Nat) (p : TaskPayload) (now : Nat)
    (hco : ∀ c, p.contact_id = some c → contactOwned contacts cid c = true) :
    updateTask tasks contacts cid id p now = updateTaskRun tasks cid id p now := by
  unfold updateTask
  cases hc : p.contact_id with
  | none => rfl
  | some c =>
    dsimp only
    rw [if_pos (hco c hc)]

/-- The mutable contact columns written back by PUT /contacts/:id carry
exactly the payload values (an omitted optional field becomes NULL) and
updated_at carries the update time. -/
def contactHasPayload (p : ContactPayload) (now : Nat) (r : Contact) : Prop :=
  p.name = some r.name ∧ r.email = p.email ∧ r.phone = p.phone ∧
  r.position = p.position ∧ r.company_name = p.company_name ∧
  r.value = p.value ∧ r.notes = p.notes ∧ r.status = p.status ∧
  r.updated_at = now

/-- The mutable lead columns written back by PUT /leads/:id. -/
def leadHasPayload (p : LeadPayload) (now : Nat) (r : Lead) : Prop :=
  p.title = some r.title ∧ r.company_name = p.company_name ∧
  r.contact_name = p.contact_name ∧ r.value = p.value ∧ r.stage = p.stage ∧
  r.probability = p.probability ∧ r.expected_close = p.expected_close ∧
  r.source = p.source ∧ r.notes = p.notes ∧ r.updated_at = now

/-- The mutable task columns written back by PUT /tasks/:id. -/
def taskHasPayload (p : TaskPayload) (now : Nat) (r : Task) : Prop :=
  p.title = some r.title ∧ r.description = p.description ∧
  r.due_date = p.due_date ∧ r.priority = p.priority ∧ r.status = p.status ∧
  r.contact_id = p.contact_id ∧ r.updated_at = now

/-- Counterexample to claim C3 as stated: on a matching row, an update
whose payload omits the required name does not write nulls over the
mutable fields — the NOT NULL constraint on contacts.name aborts the
UPDATE, the route answers with the 500 path, and the row keeps every old
value. -/
theorem update_full_replace_counterexample :
    updateContact [cW] 1 1 cpNoName 99 = (.error .InternalError, [cW]) ∧
    ¬ ∃ c, (updateContact [cW] 1 1 cpNoName 99).1 = Except.ok c := by
  refine ⟨by decide, ?_⟩
  rintro ⟨c, hc⟩
  have hev : (updateContact [cW] 1 1 cpNoName 99).1 =
      Except.error ApiError.InternalError := by decide
  rw [hev] at hc
  exact Except.noConfusion hc

/-- Claim C3, amended: an update whose id and company_id match a row and
whose payload satisfies the table constraints (name or title present, a
supplied probability within range, valid task enum labels, a supplied
task contact_id owned by the caller) overwrites every mutable field with
exactly the payload value — omitted optional fields become NULL — and
refreshes updated_at; without a matching row the update fails with
NotFound and changes nothing; a payload omitting the required name or
title makes the update fail on the NOT NULL constraint, again changing
nothing. -/
theorem update_full_replace :
    (∀ (db : List Contact) (cid id : Nat) (p : ContactPayload) (now : Nat),
      db.find? (fun c => c.id == id && c.company_id == cid) = none →
      updateContact db cid id p now = (.error .NotFound, db)) ∧
    (∀ (db : List Contact) (cid id : Nat) (p : ContactPayload) (now : Nat)
      (c : Contact) (nm : String),
      db.find? (fun c => c.id == id && c.company_id == cid) = some c →
      p.name = some nm →
      ∃ r, (updateContact db cid id p now).1 = .ok r ∧ contactHasPayload p now r ∧
        ∀ x ∈ (updateContact db cid id p now).2, x ∈ db ∨ contactHasPayload p now x) ∧
    (∀ (db : List Contact) (cid id : Nat) (p : ContactPayload) (now : Nat) (c : Contact),
      db.find? (fun c => c.id == id && c.company_id == cid) = some c →
      p.name = none →
      updateContact db cid id p now = (.error .InternalError, db)) ∧
    (∀ (db : List Lead) (cid id : Nat) (p : LeadPayload) (now : Nat),
      db.find? (fun l => l.id == id && l.company_id == cid) = none →
      updateLead db cid id p now = (.error .NotFound, db)) ∧
    (∀ (db : List Lead) (cid id : Nat) (p : LeadPayload) (now : Nat)
      (l : Lead) (ttl : String),
      db.find? (fun l => l.id == id && l.company_id == cid) = some l →
      p.title = some ttl → probabilityOk p.probability = true →
      ∃ r, (updateLead db cid id p now).1 = .ok r ∧ leadHasPayload p now r ∧
        ∀ x ∈ (updateLead db cid id p now).2, x ∈ db ∨ leadHasPayload p now x) ∧
    (∀ (db : List Lead) (cid id : Nat) (p : LeadPayload) (now : Nat) (l : Lead),
      db.find? (fun l => l.id == id && l.company_id == cid) = some l →
      p.title = none →
      updateLead db cid id p now = (.error .InternalError, db)) ∧
    (∀ (tasks : List Task) (contacts : List Contact) (cid id : Nat)
      (p : TaskPayload) (now : Nat),
      (∀ c, p.contact_id = some c → contactOwned contacts cid c = true) →
      tasks.find? (fun t => t.id == id && t.company_id == cid) = none →
      updateTask tasks contacts cid id p now = (.error .NotFound, tasks)) ∧
    (∀ (tasks : List Task) (contacts : List Contact) (cid id : Nat)
      (p : TaskPayload) (now : Nat) (t : Task) (ttl : String),
      (∀ c, p.contact_id = some c → contactOwned contacts cid c = true) →
      tasks.find? (fun t => t.id == id && t.company_id == cid) = some t →
      p.title = some ttl →
      (taskPriorityValid p.priority && taskStatusValid p.status) = true →
      ∃ r, (updateTask tasks contacts cid id p now).1 = .ok r ∧ taskHasPayload p now r ∧
        ∀ x ∈ (updateTask tasks contacts cid id p now).2, x ∈ tasks ∨ taskHasPayload p now x) ∧
    (∀ (tasks : List Task) (contacts : List Contact) (cid id : Nat)
      (p : TaskPayload) (now : Nat) (t : Task),
      (∀ c, p.contact_id = some c → contactOwned contacts cid c = true) →
      tasks.find? (fun t => t.id == id && t.company_id == cid) = some t →
      p.title = none →
      updateTask tasks contacts cid id p now = (.error .InternalError, tasks)) := by
  refine ⟨updateContact_notFound, ?_, updateContact_noName,
    updateLead_notFound, ?_, ?_, ?_, ?_, ?_⟩
  · intro db cid id p now c nm hf hn
    rw [updateContact_ok db cid id p now c nm hf hn]
    refine ⟨contactApplyUpdate p nm now c, rfl, ⟨hn, rfl, rfl, rfl, rfl, rfl, rfl, rfl, rfl⟩, ?_⟩
    intro x hx
    rcases List.mem_map.mp hx with ⟨y, hy, hxy⟩
    by_cases hc : (y.id == id && y.company_id == cid) = true
    · rw [if_pos hc] at hxy
      exact Or.inr (hxy ▸ ⟨hn, rfl, rfl, rfl, rfl, rfl, rfl, rfl, rfl⟩)
    · rw [if_neg hc] at hxy
      exact Or.inl (hxy ▸ hy)
  · intro db cid id p now l ttl hf hn hp
    rw [updateLead_ok db cid id p now l ttl hf hn hp]
    refine ⟨leadApplyUpdate p ttl now l, rfl, ⟨hn, rfl, rfl, rfl, rfl, rfl, rfl, rfl, rfl, rfl⟩, ?_⟩
    intro x hx
    rcases List.mem_map.mp hx with ⟨y, hy, hxy⟩
    by_cases hc : (y.id == id && y.company_id == cid) = true
    · rw [if_pos hc] at hxy
      exact Or.inr (hxy ▸ ⟨hn, rfl, rfl, rfl, rfl, rfl, rfl, rfl, rfl, rfl⟩)
    · rw [if_neg hc] at hxy
      exact Or.inl (hxy ▸ hy)
  · intro db cid id p now l hf hn
    exact updateLead_badRow db cid id p now l hf (Or.inl hn)
  · intro tasks contacts cid id p now hco hf
    rw [updateTask_checkPass tasks contacts cid id p now hco]
    exact updateTaskRun_notFound tasks cid id p now hf
  · intro tasks contacts cid id p now t ttl hco hf hn hv
    rw [updateTask_checkPass tasks contacts cid id p now hco]
    rw [updateTaskRun_ok tasks cid id p now t ttl hf hn hv]
    refine ⟨taskApplyUpdate p ttl now t, rfl, ⟨hn, rfl, rfl, rfl, rfl, rfl, rfl⟩, ?_⟩
    intro x hx
    rcases List.mem_map.mp hx with ⟨y, hy, hxy⟩
    by_cases hc : (y.id == id && y.company_id == cid) = true
    · rw [if_pos hc] at hxy
      exact Or.inr (hxy ▸ ⟨hn, rfl, rfl, rfl, rfl, rfl, rfl⟩)
    · rw [if_neg hc] at hxy
      exact Or.inl (hxy ▸ hy)
  · intro tasks contacts cid id p now t hco hf hn
    rw [updateTask_checkPass tasks contacts cid id p now hco]
    unfold updateTaskRun
    rw [hf]
    dsimp only
    rw [hn]

/-- An update payload for contacts carrying every field. -/
def cpFull : ContactPayload :=
  { name := some ("Johnny"), email := none, phone := some ("+1"),
    position := none, company_name := none, value := some 7,
    notes := some ("hi"), status := some ("active") }

/-- Witness for C3 at a concrete store: a full-replace update of the
demo contact overwrites the mutable fields, and a lookup miss answers
NotFound unchanged. -/
theorem update_full_replace_witness :
    (∃ r, (updateContact [cW] 1 1 cpFull 42).1 = .ok r ∧ contactHasPayload cpFull 42 r ∧
      ∀ x ∈ (updateContact [cW] 1 1 cpFull 42).2, x ∈ [cW] ∨ contactHasPayload cpFull 42 x) ∧
    updateContact [cW] 1 99 cpFull 42 = (.error .NotFound, [cW]) := by
  constructor
  · exact update_full_replace.2.1 [cW] 1 1 cpFull 42 cW ("Johnny") (by decide) (by decide)
  · exact update_full_replace.1 [cW] 1 99 cpFull 42 (by decide)

/-- The write-time clamping that the spec sentence for C2 describes:
values below 0 become 0, values above 100 become 100.  This definition
follows the spec's words so the claim can be stated and refuted; the
source contains no clamping code — its routes pass probability through
to the INSERT and UPDATE statements unchanged. -/
def specClamp (v : Int) : Int := min 100 (max 0 v)

/-- Counterexample to claim C2 as stated, on both writes the claim
quantifies over.  A lead create carrying probability 150 does not
succeed storing the clamped value specClamp 150 = 100: the CHECK
constraint on leads.probability rejects the row, the route answers with
the 500 path, and nothing is stored.  A lead update carrying probability
minus five does not succeed storing specClamp (-5) = 0: it fails the
same way and the stored row keeps its old value. -/
theorem lead_probability_not_clamped :
    createLead [] 7 lpHigh 1 0 = (.error .InternalError, ([] : List Lead)) ∧
    updateLead [lW] 1 1 lpLow 5 = (.error .InternalError, [lW]) ∧
    specClamp 150 = 100 ∧
    specClamp (-5) = 0 ∧
    ¬ (∃ l, (createLead [] 7 lpHigh 1 0).1 = Except.ok l ∧
        l.probability = some (specClamp 150)) ∧
    ¬ (∃ l, (updateLead [lW] 1 1 lpLow 5).1 = Except.ok l ∧
        l.probability = some (specClamp (-5))) := by
  refine ⟨by decide, by decide, by decide, by decide, ?_, ?_⟩
  · rintro ⟨l, hl, _⟩
    have hev : (createLead [] 7 lpHigh 1 0).1 =
        Except.error ApiError.InternalError := by decide
    rw [hev] at hl
    exact Except.noConfusion hl
  · rintro ⟨l, hl, _⟩
    have hev : (updateLead [lW] 1 1 lpLow 5).1 =
        Except.error ApiError.InternalError := by decide
    rw [hev] at hl
    exact Except.noConfusion hl

/-- Claim C2, amended: probability is range-checked, not clamped.  A
create stores the supplied probability unchanged when it lies in [0,100]
(default 10 when absent) and fails on the CHECK constraint, storing
nothing, when it lies outside; an update stores a supplied in-range
probability unchanged, fails the same way out of range, and stores NULL
when the payload omits probability. -/
theorem lead_probability_checked :
    (∀ (db : List Lead) (cid : Nat) (p : LeadPayload) (newId now : Nat)
      (ttl : String) (v : Int),
      jsStr p.title = some ttl → db.any (fun l => l.id == newId) = false →
      p.probability = some v → 0 ≤ v → v ≤ 100 →
      ∃ l, createLead db cid p newId now = (.ok l, db ++ [l]) ∧
        l.probability = some v) ∧
    (∀ (db : List Lead) (cid : Nat) (p : LeadPayload) (newId now : Nat)
      (ttl : String),
      jsStr p.title = some ttl → db.any (fun l => l.id == newId) = false →
      p.probability = none →
      ∃ l, createLead db cid p newId now = (.ok l, db ++ [l]) ∧
        l.probability = some 10) ∧
    (∀ (db : List Lead) (cid : Nat) (p : LeadPayload) (newId now : Nat)
      (ttl : String) (v : Int),
      jsStr p.title = some ttl → db.any (fun l => l.id == newId) = false →
      p.probability = some v → (v < 0 ∨ 100 < v) →
      createLead db cid p newId now = (.error .InternalError, db)) ∧
    (∀ (db : List Lead) (cid id : Nat) (p : LeadPayload) (now : Nat)
      (l0 : Lead) (ttl : String) (v : Int),
      db.find? (fun l => l.id == id && l.company_id == cid) = some l0 →
      p.title = some ttl → p.probability = some v → 0 ≤ v → v ≤ 100 →
      ∃ l, (updateLead db cid id p now).1 = .ok l ∧ l.probability = some v) ∧
    (∀ (db : List Lead) (cid id : Nat) (p : LeadPayload) (now : Nat)
      (l0 : Lead) (ttl : String) (v : Int),
      db.find? (fun l => l.id == id && l.company_id == cid) = some l0 →
      p.title = some ttl → p.probability = some v → (v < 0 ∨ 100 < v) →
      updateLead db cid id p now = (.error .InternalError, db)) ∧
    (∀ (db : List Lead) (cid id : Nat) (p : LeadPayload) (now : Nat)
      (l0 : Lead) (ttl : String),
      db.find? (fun l => l.id == id && l.company_id == cid) = some l0 →
      p.title = some ttl → p.probability = none →
      ∃ l, (updateLead db cid id p now).1 = .ok l ∧ l.probability = none) := by
  refine ⟨?_, ?_, ?_, ?_, ?_, ?_⟩
  · intro db cid p newId now ttl v ht hany hp hv1 hv2
    unfold createLead
    rw [ht]
    dsimp only
    rw [hany, hp]
    simp only [Bool.false_eq_true, if_false, Option.getD_some, probabilityOk,
      decide_eq_true_eq]
    rw [if_pos (by simp [hv1, hv2])]
    exact ⟨_, rfl, rfl⟩
  · intro db cid p newId now ttl ht hany hp
    unfold createLead
    rw [ht]
    dsimp only
    rw [hany, hp]
    simp only [Bool.false_eq_true, if_false, Option.getD_none, probabilityOk]
    rw [if_pos (by decide)]
    exact ⟨_, rfl, rfl⟩
  · intro db cid p newId now ttl v ht hany hp hv
    unfold createLead
    rw [ht]
    dsimp only
    rw [hany, hp]
    simp only [Bool.false_eq_true, if_false, Option.getD_some, probabilityOk]
    rw [if_neg ?_]
    simp only [Bool.and_eq_true, decide_eq_true_eq, not_and]
    intro h1
    rcases hv with hv | hv
    · omega
    · omega
  · intro db cid id p now l0 ttl v hf ht hp hv1 hv2
    rw [updateLead_ok db cid id p now l0 ttl hf ht
      (by simp [probabilityOk, hp, hv1, hv2])]
    exact ⟨_, rfl, by simp [leadApplyUpdate, hp]⟩
  · intro db cid id p now l0 ttl v hf ht hp hv
    refine updateLead_badRow db cid id p now l0 hf (Or.inr ?_)
    simp only [probabilityOk, hp, Bool.and_eq_false_iff, decide_eq_false_iff_not, not_le]
    omega
  · intro db cid id p now l0 ttl hf ht hp
    rw [updateLead_ok db cid id p now l0 ttl hf ht (by simp [probabilityOk, hp])]
    exact ⟨_, rfl, by simp [leadApplyUpdate, hp]⟩

/-- A lead payload with an in-range probability of 55. -/
def lpMid : LeadPayload :=
  { title := some ("Deal"), company_name := none, contact_name := none,
    value := none, stage := none, probability := some 55,
    expected_close := none, source := none, notes := none }

/-- Witness for C2 at a concrete input: probability 55 is stored exactly
on create. -/
theorem lead_probability_checked_witness :
    ∃ l, createLead [] 7 lpMid 1 0 = (.ok l, [] ++ [l]) ∧
      l.probability = some 55 :=
  lead_probability_checked.1 [] 7 lpMid 1 0 ("Deal") 55
    (by decide) (by decide) (by decide) (by decide) (by decide)

/-- Claim C4: creating a task whose contact_id does not resolve to a
contact of the caller's company fails with ValidationError and inserts
nothing; creating a task without contact_id (truthy title, valid enum
defaults, fresh id) succeeds; and the same ownership check guards the
task update whenever contact_id is supplied — failing it rejects the
update, passing it hands over to the row update. -/
theorem task_contact_ownership :
    (∀ (tasks : List Task) (contacts : List Contact) (cid : Nat)
      (p : TaskPayload) (newId now c : Nat),
      p.contact_id = some c → contactOwned contacts cid c = false →
      createTask tasks contacts cid p newId now = (.error .ValidationError, tasks)) ∧
    (∀ (tasks : List Task) (contacts : List Contact) (cid : Nat)
      (p : TaskPayload) (newId now : Nat) (ttl : String),
      p.contact_id = none → jsStr p.title = some ttl →
      tasks.any (fun t => t.id == newId) = false →
      taskPriorityValid (some (p.priority.getD ("medium"))) = true →
      taskStatusValid (some (p.status.getD ("pending"))) = true →
      ∃ t, createTask tasks contacts cid p newId now = (.ok t, tasks ++ [t]) ∧
        t.contact_id = none ∧ t.company_id = cid) ∧
    (∀ (tasks : List Task) (contacts : List Contact) (cid id : Nat)
      (p : TaskPayload) (now c : Nat),
      p.contact_id = some c → contactOwned contacts cid c = false →
      updateTask tasks contacts cid id p now = (.error .ValidationError, tasks)) ∧
    (∀ (tasks : List Task) (contacts : List Contact) (cid id : Nat)
      (p : TaskPayload) (now c : Nat),
      p.contact_id = some c → contactOwned contacts cid c = true →
      updateTask tasks contacts cid id p now = updateTaskRun tasks cid id p now) := by
  refine ⟨?_, ?_, ?_, ?_⟩
  · intro tasks contacts cid p newId now c hc ho
    unfold createTask
    cases ht : jsStr p.title with
    | none => rfl
    | some ttl =>
      dsimp only
      rw [hc]
      dsimp only
      rw [if_neg (by rw [ho]; exact Bool.false_ne_true)]
  · intro tasks contacts cid p newId now ttl hc ht hany hpv hsv
    unfold createTask
    rw [ht]
    dsimp only
    rw [hc]
    dsimp only
    unfold createTaskInsert
    rw [hany]
    simp only [Bool.false_eq_true, if_false]
    rw [if_pos (by rw [hpv, hsv]; rfl)]
    exact ⟨_, rfl, rfl, rfl⟩
  · intro tasks contacts cid id p now c hc ho
    unfold updateTask
    rw [hc]
    dsimp only
    rw [if_neg (by rw [ho]; exact Bool.false_ne_true)]
  · intro tasks contacts cid id p now c hc ho
    unfold updateTask
    rw [hc]
    dsimp only
    rw [if_pos ho]

/-- A task payload naming a contact the caller does not own. -/
def tpBad : TaskPayload :=
  { title := some ("Call them"), description := none, due_date := none,
    priority := none, status := none, contact_id := some 5 }

/-- A task payload with no contact reference. -/
def tpFree : TaskPayload :=
  { title := some ("Call them"), description := none, due_date := none,
    priority := none, status := none, contact_id := none }

/-- Witness for C4 at concrete stores: a foreign contact_id rejects the
create and inserts nothing, and the contact-free create succeeds. -/
theorem task_contact_ownership_witness :
    createTask [] [cW] 1 tpBad 1 0 = (.error .ValidationError, ([] : List Task)) ∧
    (∃ t, createTask [] [cW] 1 tpFree 2 0 =
      (.ok t, [] ++ [t]) ∧ t.contact_id = none ∧ t.company_id = 1) := by
  constructor
  · exact task_contact_ownership.1 [] [cW] 1 tpBad 1 0 5 (by decide) (by decide)
  · exact task_contact_ownership.2.1 [] [cW] 1 tpFree 2 0
      ("Call them") (by decide) (by decide) (by decide) (by decide) (by decide)

/-! Totality and transitivity of the ORDER BY comparators. -/

theorem taskLe_total (a b : TaskRow) : (taskLe a b || taskLe b a) = true := by
  simp only [taskLe]
  split_ifs <;> simp_all
  omega

theorem taskLe_trans (a b c : TaskRow) (h1 : taskLe a b = true)
    (h2 : taskLe b c = true) : taskLe a c = true := by
  simp only [taskLe] at h1 h2 ⊢
  split_ifs at h1 h2 ⊢ <;> (try simp_all) <;> omega

theorem contactCreatedDesc_total (a b : Contact) :
    (contactCreatedDesc a b || contactCreatedDesc b a) = true := by
  simp only [contactCreatedDesc, Bool.or_eq_true, decide_eq_true_eq]
  omega

theorem contactCreatedDesc_trans (a b c : Contact)
    (h1 : contactCreatedDesc a b = true) (h2 : contactCreatedDesc b c = true) :
    contactCreatedDesc a c = true := by
  simp only [contactCreatedDesc, decide_eq_true_eq] at h1 h2 ⊢
  omega

theorem leadCreatedDesc_total (a b : Lead) :
    (leadCreatedDesc a b || leadCreatedDesc b a) = true := by
  simp only [leadCreatedDesc, Bool.or_eq_true, decide_eq_true_eq]
  omega

theorem leadCreatedDesc_trans (a b c : Lead)
    (h1 : leadCreatedDesc a b = true) (h2 : leadCreatedDesc b c = true) :
    leadCreatedDesc a c = true := by
  simp only [leadCreatedDesc, decide_eq_true_eq] at h1 h2 ⊢
  omega

theorem stageGroupLe_total (a b : StageGroup) :
    (stageGroupLe a b || stageGroupLe b a) = true := by
  simp only [stageGroupLe, Bool.or_eq_true, decide_eq_true_eq]
  omega

theorem stageGroupLe_trans (a b c : StageGroup)
    (h1 : stageGroupLe a b = true) (h2 : stageGroupLe b c = true) :
    stageGroupLe a c = true := by
  simp only [stageGroupLe, decide_eq_true_eq] at h1 h2 ⊢
  omega

/-- Claim C6: the task list is sorted by the three-part task order —
priority severity (high, medium, low), then due_date ascending with null
dates last, then created_at descending — and on the concrete scenario of
three tasks with priorities low, high, medium and equal due dates comes
back as high, medium, low; contact and lead lists are sorted by
created_at descending only. -/
theorem list_ordering :
    (∀ (tasks : List Task) (contacts : List Contact) (cid : Nat) (q : TaskQuery),
      (listTasks tasks contacts cid q).Pairwise (fun a b => taskLe a b = true)) ∧
    ((listTasks [tW 1 "low" 1, tW 2 "high" 2, tW 3 "medium" 3] [] 1 tqW).map
        (fun r => r.task.priority) =
      [some ("high"), some ("medium"), some ("low")]) ∧
    (∀ (db : List Contact) (cid : Nat) (q : ContactQuery),
      (listContacts db cid q).Pairwise (fun a b => b.created_at ≤ a.created_at)) ∧
    (∀ (db : List Lead) (cid : Nat) (q : LeadQuery),
      (listLeads db cid q).Pairwise (fun a b => b.created_at ≤ a.created_at)) := by
  refine ⟨?_, by decide, ?_, ?_⟩
  · intro tasks contacts cid q
    unfold listTasks
    exact List.Pairwise.sublist (List.take_sublist _ _)
      (pairwise_sortByLe taskLe taskLe_total taskLe_trans _)
  · intro db cid q
    unfold listContacts
    refine List.Pairwise.sublist (List.take_sublist _ _) ?_
    refine (pairwise_sortByLe contactCreatedDesc contactCreatedDesc_total
      contactCreatedDesc_trans _).imp ?_
    intro a b h
    exact of_decide_eq_true (by simpa [contactCreatedDesc] using h)
  · intro db cid q
    unfold listLeads
    refine List.Pairwise.sublist (List.take_sublist _ _) ?_
    refine (pairwise_sortByLe leadCreatedDesc leadCreatedDesc_total
      leadCreatedDesc_trans _).imp ?_
    intro a b h
    exact of_decide_eq_true (by simpa [leadCreatedDesc] using h)

/-- The stage label of a built group is the grouping key. -/
theorem mkStageGroup_stage (mine : List Lead) (s : Option String) :
    (mkStageGroup mine s).stage = s := rfl

/-- Claim C7: the pipeline aggregation over the caller's leads has one
group per distinct stage value (no duplicate groups, and a group exists
exactly for the stages occurring among the caller's leads); each group
carries the count of its leads, the SQL sum of their value column and
the SQL average of their probability column; groups come back ordered by
the fixed stage sequence lead, qualified, proposal, negotiation,
closed-won, closed-lost with any other stage value ranked last; and on
the spec's concrete two-lead example the proposal group precedes the
negotiation group with counts 1, sums 5000 and 75000, and average
probabilities 50 and 70. -/
theorem pipeline_stats_correct :
    (∀ (db : List Lead) (cid : Nat),
      ((pipelineStats db cid).map (fun g => g.stage)).Nodup) ∧
    (∀ (db : List Lead) (cid : Nat) (s : Option String),
      (∃ g ∈ pipelineStats db cid, g.stage = s) ↔
        s ∈ (db.filter (fun l => l.company_id == cid)).map (fun l => l.stage)) ∧
    (∀ (db : List Lead) (cid : Nat) (g : StageGroup), g ∈ pipelineStats db cid →
      g.count = ((db.filter (fun l => l.company_id == cid)).filter
        (fun l => l.stage == g.stage)).length ∧
      g.total_value = sqlSumInt (((db.filter (fun l => l.company_id == cid)).filter
        (fun l => l.stage == g.stage)).map (fun l => l.value)) ∧
      g.avg_probability = sqlAvgInt (((db.filter (fun l => l.company_id == cid)).filter
        (fun l => l.stage == g.stage)).map (fun l => l.probability))) ∧
    (∀ (db : List Lead) (cid : Nat),
      (pipelineStats db cid).Pairwise
        (fun a b => stageRank a.stage ≤ stageRank b.stage)) ∧
    ((pipelineStats [lW, lW2] 1).map (fun g => (g.stage, g.count, g.total_value)) =
      [(some ("proposal"), 1, some 5000), (some ("negotiation"), 1, some 75000)]) ∧
    ((pipelineStats [lW, lW2] 1).map (fun g => g.avg_probability) =
      [some ((50 : Rat)), some ((70 : Rat))]) := by
  refine ⟨?_, ?_, ?_, ?_, by decide, ?_⟩
  · intro db cid
    unfold pipelineStats
    have hperm := (perm_sortByLe stageGroupLe
      ((((db.filter (fun l => l.company_id == cid)).map (fun l => l.stage)).dedup).map
        (mkStageGroup (db.filter (fun l => l.company_id == cid))))).map
      (fun g => g.stage)
    rw [List.map_map] at hperm
    have he : ((fun g => g.stage) ∘ mkStageGroup (db.filter (fun l => l.company_id == cid))) =
        (id : Option String → Option String) := funext fun s => rfl
    rw [he, List.map_id] at hperm
    exact hperm.nodup_iff.mpr (List.nodup_dedup _)
  · intro db cid s
    have hmem : ∀ x, x ∈ pipelineStats db cid ↔
        x ∈ (((db.filter (fun l => l.company_id == cid)).map (fun l => l.stage)).dedup).map
          (mkStageGroup (db.filter (fun l => l.company_id == cid))) :=
      fun x => (perm_sortByLe _ _).mem_iff
    constructor
    · rintro ⟨g, hg, rfl⟩
      rcases List.mem_map.mp ((hmem g).mp hg) with ⟨t, ht, rfl⟩
      rw [mkStageGroup_stage]
      exact List.mem_dedup.mp ht
    · intro hs
      refine ⟨mkStageGroup (db.filter (fun l => l.company_id == cid)) s, ?_, rfl⟩
      exact (hmem _).mpr (List.mem_map_of_mem _ (List.mem_dedup.mpr hs))
  · intro db cid g hg
    have hmem : g ∈ (((db.filter (fun l => l.company_id == cid)).map (fun l => l.stage)).dedup).map
        (mkStageGroup (db.filter (fun l => l.company_id == cid))) :=
      (perm_sortByLe _ _).mem_iff.mp hg
    rcases List.mem_map.mp hmem with ⟨t, _, rfl⟩
    exact ⟨rfl, rfl, rfl⟩
  · intro db cid
    unfold pipelineStats
    refine (pairwise_sortByLe stageGroupLe stageGroupLe_total
      stageGroupLe_trans _).imp ?_
    intro a b h
    exact of_decide_eq_true (by simpa [stageGroupLe] using h)
  · have h0 : (pipelineStats [lW, lW2] 1).map (fun g => g.avg_probability) =
        [sqlAvgInt [some 50], sqlAvgInt [some 70]] := rfl
    have h1 : sqlAvgInt [some 50] = some ((50 : Rat)) := by
      simp [sqlAvgInt, List.filterMap]
    have h2 : sqlAvgInt [some 70] = some ((70 : Rat)) := by
      simp [sqlAvgInt, List.filterMap]
    rw [h0, h1, h2]

/-- Witness for C7 at the concrete two-lead store: a negotiation group
exists because a negotiation lead exists. -/
theorem pipeline_stats_correct_witness :
    ∃ g ∈ pipelineStats [lW, lW2] 1, g.stage = some ("negotiation") :=
  (pipeline_stats_correct.2.1 [lW, lW2] 1 (some ("negotiation"))).mpr (by decide)

/-! Helper lemmas for the tenant-isolation claim. -/

theorem filter_self_idem (p : α → Bool) (l : List α) :
    (l.filter p).filter p = l.filter p := by
  rw [List.filter_filter]
  simp [Bool.and_self]

theorem mem_listContacts_company (db : List Contact) (cid : Nat)
    (q : ContactQuery) (c : Contact) (h : c ∈ listContacts db cid q) :
    c.company_id = cid := by
  unfold listContacts at h
  have h2 := (mem_sortByLe _ _ _).mp (List.mem_of_mem_take h)
  have h3 := (List.mem_filter.mp h2).2
  simp only [Bool.and_eq_true, beq_iff_eq] at h3
  exact h3.1

theorem mem_listLeads_company (db : List Lead) (cid : Nat)
    (q : LeadQuery) (l : Lead) (h : l ∈ listLeads db cid q) :
    l.company_id = cid := by
  unfold listLeads at h
  have h2 := (mem_sortByLe _ _ _).mp (List.mem_of_mem_take h)
  have h3 := (List.mem_filter.mp h2).2
  simp only [Bool.and_eq_true, beq_iff_eq] at h3
  exact h3.1

theorem mem_listTasks_company (tasks : List Task) (contacts : List Contact)
    (cid : Nat) (q : TaskQuery) (r : TaskRow) (h : r ∈ listTasks tasks contacts cid q) :
    r.task.company_id = cid := by
  unfold listTasks at h
  have h2 := (mem_sortByLe _ _ _).mp (List.mem_of_mem_take h)
  rcases List.mem_map.mp h2 with ⟨t, ht, rfl⟩
  have h3 := (List.mem_filter.mp ht).2
  simp only [Bool.and_eq_true, beq_iff_eq] at h3
  exact h3.1

theorem getContact_ok_company (db : List Contact) (cid id : Nat) (c : Contact)
    (h : getContact db cid id = .ok c) : c.company_id = cid := by
  unfold getContact at h
  cases hf : db.find? (fun c => c.id == id && c.company_id == cid) with
  | none =>
    rw [hf] at h
    exact absurd h (by simp)
  | some x =>
    rw [hf] at h
    dsimp only at h
    have hp := List.find?_some hf
    simp only [Bool.and_eq_true, beq_iff_eq] at hp
    injection h with h
    exact h ▸ hp.2

theorem getLead_ok_company (db : List Lead) (cid id : Nat) (l : Lead)
    (h : getLead db cid id = .ok l) : l.company_id = cid := by
  unfold getLead at h
  cases hf : db.find? (fun l => l.id == id && l.company_id == cid) with
  | none =>
    rw [hf] at h
    exact absurd h (by simp)
  | some x =>
    rw [hf] at h
    dsimp only at h
    have hp := List.find?_some hf
    simp only [Bool.and_eq_true, beq_iff_eq] at hp
    injection h with h
    exact h ▸ hp.2

theorem getTask_ok_company (tasks : List Task) (contacts : List Contact)
    (cid id : Nat) (r : TaskRow) (h : getTask tasks contacts cid id = .ok r) :
    r.task.company_id = cid := by
  unfold getTask at h
  cases hf : tasks.find? (fun t => t.id == id && t.company_id == cid) with
  | none =>
    rw [hf] at h
    exact absurd h (by simp)
  | some x =>
    rw [hf] at h
    dsimp only at h
    have hp := List.find?_some hf
    simp only [Bool.and_eq_true, beq_iff_eq] at hp
    injection h with h
    exact h ▸ hp.2

theorem contact_find?_foreign (db : List Contact) (cid id : Nat)
    (h : ∀ r ∈ db, r.id = id → r.company_id ≠ cid) :
    db.find? (fun c => c.id == id && c.company_id == cid) = none := by
  rw [List.find?_eq_none]
  intro x hx
  simp only [Bool.and_eq_true, beq_iff_eq, not_and]
  exact h x hx

theorem lead_find?_foreign (db : List Lead) (cid id : Nat)
    (h : ∀ r ∈ db, r.id = id → r.company_id ≠ cid) :
    db.find? (fun l => l.id == id && l.company_id == cid) = none := by
  rw [List.find?_eq_none]
  intro x hx
  simp only [Bool.and_eq_true, beq_iff_eq, not_and]
  exact h x hx

theorem task_find?_foreign (tasks : List Task) (cid id : Nat)
    (h : ∀ r ∈ tasks, r.id = id → r.company_id ≠ cid) :
    tasks.find? (fun t => t.id == id && t.company_id == cid) = none := by
  rw [List.find?_eq_none]
  intro x hx
  simp only [Bool.and_eq_true, beq_iff_eq, not_and]
  exact h x hx

theorem contact_any_foreign (db : List Contact) (cid id : Nat)
    (h : ∀ r ∈ db, r.id = id → r.company_id ≠ cid) :
    db.any (fun c => c.id == id && c.company_id == cid) = false := by
  rw [List.any_eq_false]
  intro x hx
  simp only [Bool.and_eq_true, beq_iff_eq, not_and]
  exact h x hx

theorem lead_any_foreign (db : List Lead) (cid id : Nat)
    (h : ∀ r ∈ db, r.id = id → r.company_id ≠ cid) :
    db.any (fun l => l.id == id && l.company_id == cid) = false := by
  rw [List.any_eq_false]
  intro x hx
  simp only [Bool.and_eq_true, beq_iff_eq, not_and]
  exact h x hx

theorem task_any_foreign (tasks : List Task) (cid id : Nat)
    (h : ∀ r ∈ tasks, r.id = id → r.company_id ≠ cid) :
    tasks.any (fun t => t.id == id && t.company_id == cid) = false := by
  rw [List.any_eq_false]
  intro x hx
  simp only [Bool.and_eq_true, beq_iff_eq, not_and]
  exact h x hx

theorem deleteContact_foreign (db : List Contact) (cid id : Nat)
    (h : ∀ r ∈ db, r.id = id → r.company_id ≠ cid) :
    deleteContact db cid id = (.error .NotFound, db) := by
  unfold deleteContact
  rw [contact_any_foreign db cid id h]
  rfl

theorem deleteLead_foreign (db : List Lead) (cid id : Nat)
    (h : ∀ r ∈ db, r.id = id → r.company_id ≠ cid) :
    deleteLead db cid id = (.error .NotFound, db) := by
  unfold deleteLead
  rw [lead_any_foreign db cid id h]
  rfl

theorem deleteTask_foreign (tasks : List Task) (cid id : Nat)
    (h : ∀ r ∈ tasks, r.id = id → r.company_id ≠ cid) :
    deleteTask tasks cid id = (.error .NotFound, tasks) := by
  unfold deleteTask
  rw [task_any_foreign tasks cid id h]
  rfl

theorem deleteContact_subset (db : List Contact) (cid id : Nat) :
    ∀ r ∈ (deleteContact db cid id).2, r ∈ db := by
  unfold deleteContact
  split
  · intro r hr
    exact (List.mem_filter.mp hr).1
  · intro r hr
    exact hr

theorem deleteContact_keeps_foreign (db : List Contact) (cid id : Nat) :
    ∀ r ∈ db, r.company_id ≠ cid → r ∈ (deleteContact db cid id).2 := by
  unfold deleteContact
  split
  · intro r hr hne
    refine List.mem_filter.mpr ⟨hr, ?_⟩
    simp only [Bool.not_eq_eq_eq_not, Bool.not_true, Bool.and_eq_false_iff]
    right
    simpa using hne
  · intro r hr _
    exact hr

theorem deleteLead_subset (db : List Lead) (cid id : Nat) :
    ∀ r ∈ (deleteLead db cid id).2, r ∈ db := by
  unfold deleteLead
  split
  · intro r hr
    exact (List.mem_filter.mp hr).1
  · intro r hr
    exact hr

theorem deleteLead_keeps_foreign (db : List Lead) (cid id : Nat) :
    ∀ r ∈ db, r.company_id ≠ cid → r ∈ (deleteLead db cid id).2 := by
  unfold deleteLead
  split
  · intro r hr hne
    refine List.mem_filter.mpr ⟨hr, ?_⟩
    simp only [Bool.not_eq_eq_eq_not, Bool.not_true, Bool.and_eq_false_iff]
    right
    simpa using hne
  · intro r hr _
    exact hr

theorem deleteTask_subset (tasks : List Task) (cid id : Nat) :
    ∀ r ∈ (deleteTask tasks cid id).2, r ∈ tasks := by
  unfold deleteTask
  split
  · intro r hr
    exact (List.mem_filter.mp hr).1
  · intro r hr
    exact hr

theorem deleteTask_keeps_foreign (tasks : List Task) (cid id : Nat) :
    ∀ r ∈ tasks, r.company_id ≠ cid → r ∈ (deleteTask tasks cid id).2 := by
  unfold deleteTask
  split
  · intro r hr hne
    refine List.mem_filter.mpr ⟨hr, ?_⟩
    simp only [Bool.not_eq_eq_eq_not, Bool.not_true, Bool.and_eq_false_iff]
    right
    simpa using hne
  · intro r hr _
    exact hr

theorem createContact_rows (db : List Contact) (cid : Nat) (p : ContactPayload)
    (newId now : Nat) :
    ∀ r ∈ (createContact db cid p newId now).2, r ∈ db ∨ r.company_id = cid := by
  unfold createContact
  cases jsStr p.name with
  | none =>
    intro r hr
    exact Or.inl hr
  | some nm =>
    dsimp only
    split
    · intro r hr
      exact Or.inl hr
    · intro r hr
      rcases List.mem_append.mp hr with hr | hr
      · exact Or.inl hr
      · right
        rcases List.mem_singleton.mp hr with rfl
        rfl

theorem createContact_ok_company (db : List Contact) (cid : Nat)
    (p : ContactPayload) (newId now : Nat) (c : Contact)
    (h : (createContact db cid p newId now).1 = .ok c) : c.company_id = cid := by
  unfold createContact at h
  cases hn : jsStr p.name with
  | none =>
    rw [hn] at h
    exact absurd h (by simp)
  | some nm =>
    rw [hn] at h
    dsimp only at h
    split at h
    · exact absurd h (by simp)
    · injection h with h
      exact h ▸ rfl

theorem createLead_rows (db : List Lead) (cid : Nat) (p : LeadPayload)
    (newId now : Nat) :
    ∀ r ∈ (createLead db cid p newId now).2, r ∈ db ∨ r.company_id = cid := by
  unfold createLead
  cases jsStr p.title with
  | none =>
    intro r hr
    exact Or.inl hr
  | some ttl =>
    dsimp only
    split
    · intro r hr
      exact Or.inl hr
    · split
      · intro r hr
        rcases List.mem_append.mp hr with hr | hr
        · exact Or.inl hr
        · right
          rcases List.mem_singleton.mp hr with rfl
          rfl
      · intro r hr
        exact Or.inl hr

theorem createLead_ok_company (db : List Lead) (cid : Nat)
    (p : LeadPayload) (newId now : Nat) (l : Lead)
    (h : (createLead db cid p newId now).1 = .ok l) : l.company_id = cid := by
  unfold createLead at h
  cases hn : jsStr p.title with
  | none =>
    rw [hn] at h
    exact absurd h (by simp)
  | some ttl =>
    rw [hn] at h
    dsimp only at h
    split at h
    · exact absurd h (by simp)
    · split at h
      · injection h with h
        exact h ▸ rfl
      · exact absurd h (by simp)

theorem createTaskInsert_rows (tasks : List Task) (cid : Nat) (p : TaskPayload)
    (ttl : String) (c : Option Nat) (newId now : Nat) :
    ∀ r ∈ (createTaskInsert tasks cid p ttl c newId now).2,
      r ∈ tasks ∨ r.company_id = cid := by
  unfold createTaskInsert
  split
  · intro r hr
    exact Or.inl hr
  · split
    · intro r hr
      rcases List.mem_append.mp hr with hr | hr
      · exact Or.inl hr
      · right
        rcases List.mem_singleton.mp hr with rfl
        rfl
    · intro r hr
      exact Or.inl hr

theorem createTask_rows (tasks : List Task) (contacts : List Contact)
    (cid : Nat) (p : TaskPayload) (newId now : Nat) :
    ∀ r ∈ (createTask tasks contacts cid p newId now).2,
      r ∈ tasks ∨ r.company_id = cid := by
  unfold createTask
  cases jsStr p.title with
  | none =>
    intro r hr
    exact Or.inl hr
  | some ttl =>
    dsimp only
    cases p.contact_id with
    | none => exact createTaskInsert_rows tasks cid p ttl none newId now
    | some c =>
      dsimp only
      split
      · exact createTaskInsert_rows tasks cid p ttl (some c) newId now
      · intro r hr
        exact Or.inl hr

theorem createTaskInsert_ok_company (tasks : List Task) (cid : Nat)
    (p : TaskPayload) (ttl : String) (c : Option Nat) (newId now : Nat) (t : Task)
    (h : (createTaskInsert tasks cid p ttl c newId now).1 = .ok t) :
    t.company_id = cid := by
  unfold createTaskInsert at h
  split at h
  · exact absurd h (by simp)
  · split at h
    · injection h with h
      exact h ▸ rfl
    · exact absurd h (by simp)

theorem createTask_ok_company (tasks : List Task) (contacts : List Contact)
    (cid : Nat) (p : TaskPayload) (newId now : Nat) (t : Task)
    (h : (createTask tasks contacts cid p newId now).1 = .ok t) :
    t.company_id = cid := by
  unfold createTask at h
  cases hn : jsStr p.title with
  | none =>
    rw [hn] at h
    exact absurd h (by simp)
  | some ttl =>
    rw [hn] at h
    dsimp only at h
    cases hc : p.contact_id with
    | none =>
      rw [hc] at h
      exact createTaskInsert_ok_company tasks cid p ttl none newId now t h
    | some c =>
      rw [hc] at h
      dsimp only at h
      split at h
      · exact createTaskInsert_ok_company tasks cid p ttl (some c) newId now t h
      · exact absurd h (by simp)

/-- Rows of other tenants survive a contact update byte-for-byte. -/
def contactTenantFrame (cid : Nat) (a b : Contact) : Prop :=
  b.company_id = a.company_id ∧ (a.company_id ≠ cid → b = a)

/-- Rows of other tenants survive a lead update byte-for-byte. -/
def leadTenantFrame (cid : Nat) (a b : Lead) : Prop :=
  b.company_id = a.company_id ∧ (a.company_id ≠ cid → b = a)

/-- Rows of other tenants survive a task update byte-for-byte. -/
def taskTenantFrame (cid : Nat) (a b : Task) : Prop :=
  b.company_id = a.company_id ∧ (a.company_id ≠ cid → b = a)

theorem updateContact_tenant_frame (db : List Contact) (cid id : Nat)
    (p : ContactPayload) (now : Nat) :
    List.Forall₂ (contactTenantFrame cid) db (updateContact db cid id p now).2 := by
  have hrefl : List.Forall₂ (contactTenantFrame cid) db db :=
    List.forall₂_same.mpr (fun x _ => ⟨rfl, fun _ => rfl⟩)
  unfold updateContact
  cases hf : db.find? (fun c => c.id == id && c.company_id == cid) with
  | none => exact hrefl
  | some c =>
    cases hn : p.name with
    | none => exact hrefl
    | some nm =>
      dsimp only
      rw [List.forall₂_map_right_iff]
      refine List.forall₂_same.mpr (fun x _ => ?_)
      dsimp only
      by_cases hx : (x.id == id && x.company_id == cid) = true
      · rw [if_pos hx]
        refine ⟨rfl, fun hne => ?_⟩
        simp only [Bool.and_eq_true, beq_iff_eq] at hx
        exact absurd hx.2 hne
      · rw [if_neg hx]
        exact ⟨rfl, fun _ => rfl⟩

theorem updateLead_tenant_frame (db : List Lead) (cid id : Nat)
    (p : LeadPayload) (now : Nat) :
    List.Forall₂ (leadTenantFrame cid) db (updateLead db cid id p now).2 := by
  have hrefl : List.Forall₂ (leadTenantFrame cid) db db :=
    List.forall₂_same.mpr (fun x _ => ⟨rfl, fun _ => rfl⟩)
  unfold updateLead
  cases hf : db.find? (fun l => l.id == id && l.company_id == cid) with
  | none => exact hrefl
  | some l =>
    cases hn : p.title with
    | none => exact hrefl
    | some ttl =>
      dsimp only
      split
      · rw [List.forall₂_map_right_iff]
        refine List.forall₂_same.mpr (fun x _ => ?_)
        dsimp only
        by_cases hx : (x.id == id && x.company_id == cid) = true
        · rw [if_pos hx]
          refine ⟨rfl, fun hne => ?_⟩
          simp only [Bool.and_eq_true, beq_iff_eq] at hx
          exact absurd hx.2 hne
        · rw [if_neg hx]
          exact ⟨rfl, fun _ => rfl⟩
      · exact hrefl

theorem updateTask_tenant_frame (tasks : List Task) (contacts : List Contact)
    (cid id : Nat) (p : TaskPayload) (now : Nat) :
    List.Forall₂ (taskTenantFrame cid) tasks (updateTask tasks contacts cid id p now).2 := by
  have hrefl : List.Forall₂ (taskTenantFrame cid) tasks tasks :=
    List.forall₂_same.mpr (fun x _ => ⟨rfl, fun _ => rfl⟩)
  have hrun : List.Forall₂ (taskTenantFrame cid) tasks (updateTaskRun tasks cid id p now).2 := by
    unfold updateTaskRun
    cases hf : tasks.find? (fun t => t.id == id && t.company_id == cid) with
    | none => exact hrefl
    | some t =>
      cases hn : p.title with
      | none => exact hrefl
      | some ttl =>
        dsimp only
        split
        · rw [List.forall₂_map_right_iff]
          refine List.forall₂_same.mpr (fun x _ => ?_)
          dsimp only
          by_cases hx : (x.id == id && x.company_id == cid) = true
          · rw [if_pos hx]
            refine ⟨rfl, fun hne => ?_⟩
            simp only [Bool.and_eq_true, beq_iff_eq] at hx
            exact absurd hx.2 hne
          · rw [if_neg hx]
            exact ⟨rfl, fun _ => rfl⟩
        · exact hrefl
  unfold updateTask
  cases p.contact_id with
  | none => exact hrun
  | some c =>
    dsimp only
    split
    · exact hrun
    · exact hrefl

theorem updateContact_ok_company (db : List Contact) (cid id : Nat)
    (p : ContactPayload) (now : Nat) (r : Contact)
    (h : (updateContact db cid id p now).1 = .ok r) : r.company_id = cid := by
  unfold updateContact at h
  cases hf : db.find? (fun c => c.id == id && c.company_id == cid) with
  | none =>
    rw [hf] at h
    exact absurd h (by simp)
  | some c =>
    rw [hf] at h
    dsimp only at h
    cases hn : p.name with
    | none =>
      rw [hn] at h
      exact absurd h (by simp)
    | some nm =>
      rw [hn] at h
      dsimp only at h
      injection h with h
      have hp := List.find?_some hf
      simp only [Bool.and_eq_true, beq_iff_eq] at hp
      exact h ▸ hp.2

theorem updateLead_ok_company (db : List Lead) (cid id : Nat)
    (p : LeadPayload) (now : Nat) (r : Lead)
    (h : (updateLead db cid id p now).1 = .ok r) : r.company_id = cid := by
  unfold updateLead at h
  cases hf : db.find? (fun l => l.id == id && l.company_id == cid) with
  | none =>
    rw [hf] at h
    exact absurd h (by simp)
  | some l =>
    rw [hf] at h
    dsimp only at h
    cases hn : p.title with
    | none =>
      rw [hn] at h
      exact absurd h (by simp)
    | some ttl =>
      rw [hn] at h
      dsimp only at h
      split at h
      · injection h with h
        have hp := List.find?_some hf
        simp only [Bool.and_eq_true, beq_iff_eq] at hp
        exact h ▸ hp.2
      · exact absurd h (by simp)

theorem updateTask_ok_company (tasks : List Task) (contacts : List Contact)
    (cid id : Nat) (p : TaskPayload) (now : Nat) (r : Task)
    (h : (updateTask tasks contacts cid id p now).1 = .ok r) :
    r.company_id = cid := by
  have hrun : ∀ (h : (updateTaskRun tasks cid id p now).1 = .ok r), r.company_id = cid := by
    intro h
    unfold updateTaskRun at h
    cases hf : tasks.find? (fun t => t.id == id && t.company_id == cid) with
    | none =>
      rw [hf] at h
      exact absurd h (by simp)
    | some t =>
      rw [hf] at h
      dsimp only at h
      cases hn : p.title with
      | none =>
        rw [hn] at h
        exact absurd h (by simp)
      | some ttl =>
        rw [hn] at h
        dsimp only at h
        split at h
        · injection h with h
          have hp := List.find?_some hf
          simp only [Bool.and_eq_true, beq_iff_eq] at hp
          exact h ▸ hp.2
        · exact absurd h (by simp)
  unfold updateTask at h
  cases hc : p.contact_id with
  | none =>
    rw [hc] at h
    exact hrun h
  | some c =>
    rw [hc] at h
    dsimp only at h
    split at h
    · exact hrun h
    · exact absurd h (by simp)

theorem pipelineStats_insensitive (db : List Lead) (cid : Nat) :
    pipelineStats (db.filter (fun l => l.company_id == cid)) cid =
      pipelineStats db cid := by
  unfold pipelineStats
  rw [filter_self_idem]

theorem taskStatsOverview_insensitive (tasks : List Task) (cid : Nat) :
    taskStatsOverview (tasks.filter (fun t => t.company_id == cid)) cid =
      taskStatsOverview tasks cid := by
  unfold taskStatsOverview
  rw [filter_self_idem]

/-- Claim C1: every operation on contacts, leads and tasks is scoped to
the caller's company_id.  Lists and get-one return only rows of the
caller's tenant; a valid id belonging to a different tenant makes
get-one, update and delete fail with NotFound leaving the store
unchanged; creates insert only rows stamped with the caller's
company_id; updates modify only the caller's rows (all other rows
survive byte-for-byte) and return only the caller's rows; deletes remove
only the caller's rows; and the two aggregation queries are computed
from the caller's rows alone — restricting the store to the caller's
tenant does not change their output. -/
theorem tenant_isolation :
    (∀ (db : List Contact) (cid : Nat) (q : ContactQuery) (c : Contact),
      c ∈ listContacts db cid q → c.company_id = cid) ∧
    (∀ (db : List Lead) (cid : Nat) (q : LeadQuery) (l : Lead),
      l ∈ listLeads db cid q → l.company_id = cid) ∧
    (∀ (tasks : List Task) (contacts : List Contact) (cid : Nat) (q : TaskQuery)
      (r : TaskRow), r ∈ listTasks tasks contacts cid q → r.task.company_id = cid) ∧
    (∀ (db : List Contact) (cid id : Nat) (c : Contact),
      getContact db cid id = .ok c → c.company_id = cid) ∧
    (∀ (db : List Lead) (cid id : Nat) (l : Lead),
      getLead db cid id = .ok l → l.company_id = cid) ∧
    (∀ (tasks : List Task) (contacts : List Contact) (cid id : Nat) (r : TaskRow),
      getTask tasks contacts cid id = .ok r → r.task.company_id = cid) ∧
    (∀ (db : List Contact) (cid id : Nat),
      (∀ r ∈ db, r.id = id → r.company_id ≠ cid) →
      getContact db cid id = .error .NotFound ∧
      (∀ (p : ContactPayload) (now : Nat),
        updateContact db cid id p now = (.error .NotFound, db)) ∧
      deleteContact db cid id = (.error .NotFound, db)) ∧
    (∀ (db : List Lead) (cid id : Nat),
      (∀ r ∈ db, r.id = id → r.company_id ≠ cid) →
      getLead db cid id = .error .NotFound ∧
      (∀ (p : LeadPayload) (now : Nat),
        updateLead db cid id p now = (.error .NotFound, db)) ∧
      deleteLead db cid id = (.error .NotFound, db)) ∧
    (∀ (tasks : List Task) (contacts : List Contact) (cid id : Nat),
      (∀ r ∈ tasks, r.id = id → r.company_id ≠ cid) →
      getTask tasks contacts cid id = .error .NotFound ∧
      (∀ (p : TaskPayload) (now : Nat),
        (∀ c, p.contact_id = some c → contactOwned contacts cid c = true) →
        updateTask tasks contacts cid id p now = (.error .NotFound, tasks)) ∧
      deleteTask tasks cid id = (.error .NotFound, tasks)) ∧
    (∀ (db : List Contact) (cid : Nat) (p : ContactPayload) (newId now : Nat),
      (∀ r ∈ (createContact db cid p newId now).2, r ∈ db ∨ r.company_id = cid) ∧
      ∀ c, (createContact db cid p newId now).1 = .ok c → c.company_id = cid) ∧
    (∀ (db : List Lead) (cid : Nat) (p : LeadPayload) (newId now : Nat),
      (∀ r ∈ (createLead db cid p newId now).2, r ∈ db ∨ r.company_id = cid) ∧
      ∀ l, (createLead db cid p newId now).1 = .ok l → l.company_id = cid) ∧
    (∀ (tasks : List Task) (contacts : List Contact) (cid : Nat)
      (p : TaskPayload) (newId now : Nat),
      (∀ r ∈ (createTask tasks contacts cid p newId now).2,
        r ∈ tasks ∨ r.company_id = cid) ∧
      ∀ t, (createTask tasks contacts cid p newId now).1 = .ok t →
        t.company_id = cid) ∧
    (∀ (db : List Contact) (cid id : Nat) (p : ContactPayload) (now : Nat),
      List.Forall₂ (contactTenantFrame cid) db (updateContact db cid id p now).2 ∧
      ∀ r, (updateContact db cid id p now).1 = .ok r → r.company_id = cid) ∧
    (∀ (db : List Lead) (cid id : Nat) (p : LeadPayload) (now : Nat),
      List.Forall₂ (leadTenantFrame cid) db (updateLead db cid id p now).2 ∧
      ∀ r, (updateLead db cid id p now).1 = .ok r → r.company_id = cid) ∧
    (∀ (tasks : List Task) (contacts : List Contact) (cid id : Nat)
      (p : TaskPayload) (now : Nat),
      List.Forall₂ (taskTenantFrame cid) tasks (updateTask tasks contacts cid id p now).2 ∧
      ∀ r, (updateTask tasks contacts cid id p now).1 = .ok r → r.company_id = cid) ∧
    (∀ (db : List Contact) (cid id : Nat),
      (∀ r ∈ (deleteContact db cid id).2, r ∈ db) ∧
      ∀ r ∈ db, r.company_id ≠ cid → r ∈ (deleteContact db cid id).2) ∧
    (∀ (db : List Lead) (cid id : Nat),
      (∀ r ∈ (deleteLead db cid id).2, r ∈ db) ∧
      ∀ r ∈ db, r.company_id ≠ cid → r ∈ (deleteLead db cid id).2) ∧
    (∀ (tasks : List Task) (cid id : Nat),
      (∀ r ∈ (deleteTask tasks cid id).2, r ∈ tasks) ∧
      ∀ r ∈ tasks, r.company_id ≠ cid → r ∈ (deleteTask tasks cid id).2) ∧
    (∀ (db : List Lead) (cid : Nat),
      pipelineStats (db.filter (fun l => l.company_id == cid)) cid =
        pipelineStats db cid) ∧
    (∀ (tasks : List Task) (cid : Nat),
      taskStatsOverview (tasks.filter (fun t => t.company_id == cid)) cid =
        taskStatsOverview tasks cid) := by
  refine ⟨mem_listContacts_company, mem_listLeads_company, mem_listTasks_company,
    getContact_ok_company, getLead_ok_company, getTask_ok_company,
    ?_, ?_, ?_, ?_, ?_, ?_, ?_, ?_, ?_,
    fun db cid id => ⟨deleteContact_subset db cid id, deleteContact_keeps_foreign db cid id⟩,
    fun db cid id => ⟨deleteLead_subset db cid id, deleteLead_keeps_foreign db cid id⟩,
    fun tasks cid id => ⟨deleteTask_subset tasks cid id, deleteTask_keeps_foreign tasks cid id⟩,
    pipelineStats_insensitive, taskStatsOverview_insensitive⟩
  · intro db cid id h
    have hf := contact_find?_foreign db cid id h
    refine ⟨?_, ?_, deleteContact_foreign db cid id h⟩
    · unfold getContact
      rw [hf]
    · intro p now
      exact updateContact_notFound db cid id p now hf
  · intro db cid id h
    have hf := lead_find?_foreign db cid id h
    refine ⟨?_, ?_, deleteLead_foreign db cid id h⟩
    · unfold getLead
      rw [hf]
    · intro p now
      exact updateLead_notFound db cid id p now hf
  · intro tasks contacts cid id h
    have hf := task_find?_foreign tasks cid id h
    refine ⟨?_, ?_, deleteTask_foreign tasks cid id h⟩
    · unfold getTask
      rw [hf]
    · intro p now hco
      rw [updateTask_checkPass tasks contacts cid id p now hco]
      exact updateTaskRun_notFound tasks cid id p now hf
  · intro db cid p newId now
    exact ⟨createContact_rows db cid p newId now,
      fun c => createContact_ok_company db cid p newId now c⟩
  · intro db cid p newId now
    exact ⟨createLead_rows db cid p newId now,
      fun l => createLead_ok_company db cid p newId now l⟩
  · intro tasks contacts cid p newId now
    exact ⟨createTask_rows tasks contacts cid p newId now,
      fun t => createTask_ok_company tasks contacts cid p newId now t⟩
  · intro db cid id p now
    exact ⟨updateContact_tenant_frame db cid id p now,
      fun r => updateContact_ok_company db cid id p now r⟩
  · intro db cid id p now
    exact ⟨updateLead_tenant_frame db cid id p now,
      fun r => updateLead_ok_company db cid id p now r⟩
  · intro tasks contacts cid id p now
    exact ⟨updateTask_tenant_frame tasks contacts cid id p now,
      fun r => updateTask_ok_company tasks contacts cid id p now r⟩

/-- Witness for C1 at a concrete two-tenant store: the caller from
company 1 asking for rows that belong to company 2 by their valid ids
gets NotFound from get, update and delete, with the store unchanged. -/
theorem tenant_isolation_witness :
    getContact [cW, cW2] 1 2 = .error .NotFound ∧
    updateContact [cW, cW2] 1 2 cpFull 5 = (.error .NotFound, [cW, cW2]) ∧
    deleteContact [cW, cW2] 1 2 = (.error .NotFound, [cW, cW2]) ∧
    getLead [lW, lW3] 1 3 = .error .NotFound ∧
    deleteTask [tW 1 ("low") 1, tW2] 1 9 = (.error .NotFound, [tW 1 ("low") 1, tW2]) := by
  have h7 := tenant_isolation.2.2.2.2.2.2.1 [cW, cW2] 1 2 (by decide)
  have h8 := tenant_isolation.2.2.2.2.2.2.2.1 [lW, lW3] 1 3 (by decide)
  have h9 := tenant_isolation.2.2.2.2.2.2.2.2.1 [tW 1 ("low") 1, tW2] [] 1 9 (by decide)
  exact ⟨h7.1, h7.2.1 cpFull 5, h7.2.2, h8.1, h9.2.2⟩

end CRM
